import Mathlib

/-!
Shallow embedding of the audio-metadata batch tagger (src/common.py, src/terminal.py,
src/bpm.py, src/cover.py, src/metadata.py) and proofs about its claims.

Modelling conventions:
* A file's tag container is modelled explicitly (`MP3Tags`, `M4ATags`); a file is
  `AudioFile` (unsupported, or a format together with its optional tag container,
  mirroring `audio.tags is None`).
* Python string values are Lean `String`; Python `int(...)` is modelled by `pyInt`;
  Python truthiness of optional strings/ints is modelled by `pyTruthyStr`/`pyTruthyInt`.
* Code that can raise an uncaught exception is modelled in `Except PyErr`.
* Interactive input is a stream `Nat → InEvent`; a `KeyboardInterrupt` is the
  event `InEvent.interrupt`.
* The external tempo estimation (librosa) is an oracle parameter `Option ℚ`
  (`none` = estimation raised or returned no candidates, `some q` = first candidate).
-/

/-- Python `str.isspace`-style whitespace relevant to `str.strip` (ASCII fragment). -/
def isPySpace (c : Char) : Bool :=
  c == ' ' || c == '\t' || c == '\n' || c == '\r' || c == '\x0b' || c == '\x0c'

/-- Python `str.strip` on a list of characters. -/
def pyStripL (l : List Char) : List Char :=
  ((l.dropWhile isPySpace).reverse.dropWhile isPySpace).reverse

/-- Python `str.strip` on a `String`. -/
def pyStrip (s : String) : String :=
  String.mk (pyStripL s.data)

/-- Python `str.lower` (ASCII fragment). -/
def pyLower (s : String) : String :=
  String.mk (s.data.map Char.toLower)

/-- Value of a list of decimal digits. -/
def digitsVal (l : List Char) : Nat :=
  l.foldl (fun a c => a * 10 + (c.toNat - 48)) 0

/-- Parse an unsigned run of decimal digits, failing on empty or non-digit input. -/
def parseDigits (l : List Char) : Option Int :=
  if l ≠ [] ∧ l.all Char.isDigit then some (Int.ofNat (digitsVal l)) else none

/-- Python `int(s)` on a string: strip whitespace, optional sign, decimal digits. -/
def pyInt (s : String) : Option Int :=
  match pyStripL s.data with
  | [] => none
  | c :: rest =>
    if c == '+' then parseDigits rest
    else if c == '-' then (parseDigits rest).map (fun n => -n)
    else parseDigits (c :: rest)

/-- Truthiness of a Python `str | None` value (`None` and the empty string are falsy). -/
def pyTruthyStr : Option String → Bool
  | none => false
  | some s => s ≠ ""

/-- Truthiness of a Python `int | None` value (`None` and `0` are falsy). -/
def pyTruthyInt : Option Int → Bool
  | none => false
  | some n => n ≠ 0

/-- The character of a decimal digit. -/
def digitChar : Nat → Char
  | 0 => '0' | 1 => '1' | 2 => '2' | 3 => '3' | 4 => '4'
  | 5 => '5' | 6 => '6' | 7 => '7' | 8 => '8' | _ => '9'

/-- Decimal digits of a natural number, most significant first, with enough
fuel (any `fuel > n` is exact). -/
def natTextAux : Nat → Nat → List Char
  | 0, _ => []
  | fuel + 1, n =>
    if n < 10 then [digitChar n]
    else natTextAux fuel (n / 10) ++ [digitChar (n % 10)]

/-- Python `str(v)` for an integer: decimal digits, with a leading minus sign
for negative values. -/
def intToText (v : Int) : String :=
  if v < 0 then String.mk ('-' :: natTextAux ((-v).toNat + 1) (-v).toNat)
  else String.mk (natTextAux (v.toNat + 1) v.toNat)

/-- The `TerminalResult` enum of src/terminal.py. -/
inductive TerminalResult
  | EXIT
  | FAILED
  | SUCCESS

deriving DecidableEq, Repr

/-- One interaction with `input()`: either a line was read or a
`KeyboardInterrupt` was raised. -/
inductive InEvent
  | line (s : String)
  | interrupt

deriving DecidableEq, Repr

/-- src/terminal.py `ask_input_str`. -/
def ask_input_str (dflt : Option String) (ev : InEvent) :
    TerminalResult × Option String :=
  match ev with
  | .interrupt => (.EXIT, none)
  | .line s =>
    let val := pyStrip s
    if val == "" && !(pyTruthyStr dflt) then (.FAILED, none)
    else if val == "" && pyTruthyStr dflt then (.SUCCESS, dflt)
    else (.SUCCESS, some val)

/-- src/terminal.py `ask_input_int`. -/
def ask_input_int (dflt : Option Int) (ev : InEvent) :
    TerminalResult × Option Int :=
  match ev with
  | .interrupt => (.EXIT, dflt)
  | .line s =>
    match pyInt (pyStrip s) with
    | none => (.FAILED, dflt)
    | some n => (.SUCCESS, some n)

/-- src/terminal.py `ask_input_bool`. -/
def ask_input_bool (dflt : Bool) (ev : InEvent) : TerminalResult × Bool :=
  match ev with
  | .interrupt => (.EXIT, dflt)
  | .line s =>
    let val := pyLower (pyStrip s)
    if val == "" then (.SUCCESS, dflt)
    else if val == "y" || val == "yes" then (.SUCCESS, true)
    else if val == "n" || val == "no" then (.SUCCESS, false)
    else (.FAILED, dflt)

deriving instance DecidableEq for Except

/-- Uncaught Python exceptions that the modelled code can raise. -/
inductive PyErr
  | keyError
  | indexError
  | typeError
  | attributeError

deriving DecidableEq, Repr

/-- ID3 tag container of an MP3 file (src: mutagen `audio.tags`): each frame kind
holds its text list when the frame is present; `apic` is the list of attached
picture frames. -/
structure MP3Tags where
  tit2 : Option (List String)
  tpe1 : Option (List String)
  talb : Option (List String)
  tpe2 : Option (List String)
  trck : Option (List String)
  tpos : Option (List String)
  tcon : Option (List String)
  tyer : Option (List String)
  tbpm : Option (List String)
  apic : List Unit

deriving DecidableEq, Repr

/-- An MP3 tag container with no frames. -/
def MP3Tags.empty : MP3Tags :=
  { tit2 := none, tpe1 := none, talb := none, tpe2 := none, trck := none,
    tpos := none, tcon := none, tyer := none, tbpm := none, apic := [] }

/-- MP4 tag atom container of an M4A file (src: mutagen `audio.tags`): keys of
the MP4 vocabulary used by the program, each holding its value list when present. -/
structure M4ATags where
  nam : Option (List String)
  art : Option (List String)
  alb : Option (List String)
  aart : Option (List String)
  trkn : Option (List (Int × Int))
  disk : Option (List (Int × Int))
  gen : Option (List String)
  day : Option (List String)
  tmpo : Option (List Int)
  covr : Option (List Unit)

deriving DecidableEq, Repr

/-- An M4A tag container with no atoms. -/
def M4ATags.empty : M4ATags :=
  { nam := none, art := none, alb := none, aart := none, trkn := none,
    disk := none, gen := none, day := none, tmpo := none, covr := none }

/-- A file as classified by `common.get_audio_file_extension`, together with its
tag container (`none` models `audio.tags is None`). -/
inductive AudioFile
  | unsupported
  | mp3 (tags : Option MP3Tags)
  | m4a (tags : Option M4ATags)

deriving DecidableEq, Repr

namespace MetadataFlags

def NONE : Nat := 0x0000

def HAS_ARTIST : Nat := 0x0001

def HAS_TITLE : Nat := 0x0002

def HAS_ALBUM : Nat := 0x0004

def HAS_ALBUM_ARTIST : Nat := 0x0008

def HAS_TRACK_NUMBER : Nat := 0x0010

def HAS_DISC_NUMBER : Nat := 0x0020

def HAS_GENRE : Nat := 0x0040

def HAS_YEAR : Nat := 0x0080

def HAS_COVER : Nat := 0x0100

def HAS_BPM : Nat := 0x0200

end MetadataFlags

/-- src/metadata.py `is_missing` (on the non-negative bitmask). -/
def is_missing (metadata_flags : Nat) (flag : Nat) : Bool :=
  metadata_flags &&& flag == MetadataFlags.NONE

/-- src/bpm.py `has_bpm`, MP3 branch, given a present tag container:
frame present, text non-empty, first text parses to a positive integer. -/
def mp3HasBpm (t : MP3Tags) : Bool :=
  match t.tbpm with
  | none => false
  | some [] => false
  | some (s :: _) =>
    match pyInt s with
    | none => false
    | some n => n > 0

/-- src/bpm.py `has_bpm`, M4A branch, given a present tag container:
atom present, value list non-empty, first value positive. -/
def m4aHasBpm (t : M4ATags) : Bool :=
  match t.tmpo with
  | none => false
  | some [] => false
  | some (n :: _) => n > 0

/-- src/cover.py `has_cover`, MP3 branch (tags may be absent): some APIC frame exists. -/
def mp3HasCover : Option MP3Tags → Bool
  | none => false
  | some t => !t.apic.isEmpty

/-- src/cover.py `has_cover`, M4A branch, given a present tag container:
the covr atom exists and is non-empty. -/
def m4aHasCover (t : M4ATags) : Bool :=
  match t.covr with
  | none => false
  | some l => !l.isEmpty

/-- src/bpm.py `has_bpm` at file level. Opening the tag container of a file
whose tags are absent raises `AttributeError` (`audio.tags.get` on `None`). -/
def has_bpm : AudioFile → Except PyErr Bool
  | .unsupported => .ok false
  | .mp3 none => .error .attributeError
  | .mp3 (some t) => .ok (mp3HasBpm t)
  | .m4a none => .error .attributeError
  | .m4a (some t) => .ok (m4aHasBpm t)

/-- src/cover.py `has_cover` at file level. For M4A, membership test on a `None`
tag container raises `TypeError`; the MP3 branch guards with `if audio.tags`. -/
def has_cover : AudioFile → Except PyErr Bool
  | .unsupported => .ok false
  | .mp3 t => .ok (mp3HasCover t)
  | .m4a none => .error .typeError
  | .m4a (some t) => .ok (m4aHasCover t)

/-- The OR-chain shared by both branches of src/metadata.py `check_metadata`
(lines 92-107 resp. 113-128 plus the cover/BPM lines 130-133): each presence
bit is ORed in iff the corresponding condition holds, in declaration order of
the source (title, artist, album, album artist, track, disc, genre, year,
cover, BPM). -/
def presenceBits (title artist album albumArtist track disc genre year cover tempo : Bool) :
    Nat :=
  let res := MetadataFlags.NONE
  let res := if title then res ||| MetadataFlags.HAS_TITLE else res
  let res := if artist then res ||| MetadataFlags.HAS_ARTIST else res
  let res := if album then res ||| MetadataFlags.HAS_ALBUM else res
  let res := if albumArtist then res ||| MetadataFlags.HAS_ALBUM_ARTIST else res
  let res := if track then res ||| MetadataFlags.HAS_TRACK_NUMBER else res
  let res := if disc then res ||| MetadataFlags.HAS_DISC_NUMBER else res
  let res := if genre then res ||| MetadataFlags.HAS_GENRE else res
  let res := if year then res ||| MetadataFlags.HAS_YEAR else res
  let res := if cover then res ||| MetadataFlags.HAS_COVER else res
  let res := if tempo then res ||| MetadataFlags.HAS_BPM else res
  res

/-- Full bitmask of an MP3 file with a present tag container: each basic bit
tracks presence of its frame key, and the cover/BPM bits come from the
delegated checks (src/metadata.py lines 92-107 and 130-133). -/
def mp3AllBits (t : MP3Tags) : Nat :=
  presenceBits t.tit2.isSome t.tpe1.isSome t.talb.isSome t.tpe2.isSome
    t.trck.isSome t.tpos.isSome t.tcon.isSome t.tyer.isSome
    (mp3HasCover (some t)) (mp3HasBpm t)

/-- Full bitmask of an M4A file with a present tag container: each basic bit
tracks presence of its atom key, and the cover/BPM bits come from the
delegated checks (src/metadata.py lines 113-128 and 130-133). -/
def m4aAllBits (t : M4ATags) : Nat :=
  presenceBits t.nam.isSome t.art.isSome t.alb.isSome t.aart.isSome
    t.trkn.isSome t.disk.isSome t.gen.isSome t.day.isSome
    (m4aHasCover t) (m4aHasBpm t)

/-- src/metadata.py `check_metadata`: -1 for unsupported files, 0 when the tag
container is absent (early return before the cover/BPM checks), otherwise the
basic bits ORed with the delegated cover and BPM presence bits. -/
def check_metadata (f : AudioFile) : Int :=
  match f with
  | .unsupported => -1
  | .mp3 none => (MetadataFlags.NONE : Int)
  | .m4a none => (MetadataFlags.NONE : Int)
  | .mp3 (some t) => (mp3AllBits t : Int)
  | .m4a (some t) => (m4aAllBits t : Int)

/-- Does the first list occur as a leading segment of the second? -/
def leadsWith : List Char → List Char → Bool
  | [], _ => true
  | _ :: _, [] => false
  | a :: as, b :: bs => a == b && leadsWith as bs

/-- Split a list at the first occurrence of the separator `sep`, returning the
parts before and after it; `none` when `sep` does not occur.  Models Python
`base.split(sep, 1)` yielding two parts. -/
def splitOnFirst (sep : List Char) : List Char → Option (List Char × List Char)
  | [] => none
  | c :: rest =>
    if leadsWith sep (c :: rest) then some ([], (c :: rest).drop sep.length)
    else
      match splitOnFirst sep rest with
      | some (p, q) => some (c :: p, q)
      | none => none

/-- Index of the last dot in the list, if any. -/
def lastDotIdx : List Char → Option Nat
  | [] => none
  | c :: rest =>
    match lastDotIdx rest with
    | some j => some (j + 1)
    | none => if c == '.' then some 0 else none

/-- Python `os.path.splitext(p)[0]` for a plain basename (no directory
separators): drop the part from the last dot on, unless every character before
that dot is itself a dot (leading dots do not start an extension). -/
def splitextBase (l : List Char) : List Char :=
  match lastDotIdx l with
  | none => l
  | some i => if (l.take i).any (fun c => !(c == '.')) then l.take i else l

/-- The literal separator of src/metadata.py `parse_filename`. -/
def sepDashL : List Char := [' ', '-', ' ']

/-- src/metadata.py `parse_filename` on the character list of a basename:
strip the extension, split on the first occurrence of the separator, strip
whitespace from both parts; `none` when the separator does not occur. -/
def parse_filename_core (l : List Char) : Option (List Char × List Char) :=
  let base := splitextBase l
  match splitOnFirst sepDashL base with
  | none => none
  | some (p, q) => some (pyStripL p, pyStripL q)

/-- src/metadata.py `parse_filename` on a `String` basename. -/
def parse_filename (filename : String) : Option (String × String) :=
  match parse_filename_core filename.data with
  | none => none
  | some (a, t) => some (String.mk a, String.mk t)

/-- src/metadata.py `set_basic_metadata`: overwrite exactly the truthy
(non-`None`, non-empty, non-zero) arguments in the tag container, creating the
container when absent, and leave every other field unchanged.  Numeric values
written into ID3 text frames are modelled as their decimal strings. -/
def set_basic_metadata (f : AudioFile) (title artist album album_artist : Option String)
    (track_nr disc_nr : Option Int) (genre : Option String) (year : Option Int) :
    AudioFile :=
  match f with
  | .unsupported => .unsupported
  | .mp3 t0 =>
    let t := t0.getD MP3Tags.empty
    .mp3 (some { t with
      tit2 := if pyTruthyStr title then some [title.getD ""] else t.tit2,
      tpe1 := if pyTruthyStr artist then some [artist.getD ""] else t.tpe1,
      talb := if pyTruthyStr album then some [album.getD ""] else t.talb,
      tpe2 := if pyTruthyStr album_artist then some [album_artist.getD ""] else t.tpe2,
      trck := if pyTruthyInt track_nr then some [intToText (track_nr.getD 0)] else t.trck,
      tpos := if pyTruthyInt disc_nr then some [intToText (disc_nr.getD 0)] else t.tpos,
      tcon := if pyTruthyStr genre then some [genre.getD ""] else t.tcon,
      tyer := if pyTruthyInt year then some [intToText (year.getD 0)] else t.tyer })
  | .m4a t0 =>
    let t := t0.getD M4ATags.empty
    .m4a (some { t with
      nam := if pyTruthyStr title then some [title.getD ""] else t.nam,
      art := if pyTruthyStr artist then some [artist.getD ""] else t.art,
      alb := if pyTruthyStr album then some [album.getD ""] else t.alb,
      aart := if pyTruthyStr album_artist then some [album_artist.getD ""] else t.aart,
      trkn := if pyTruthyInt track_nr then some [(track_nr.getD 0, 0)] else t.trkn,
      disk := if pyTruthyInt disc_nr then some [(disc_nr.getD 0, 0)] else t.disk,
      gen := if pyTruthyStr genre then some [genre.getD ""] else t.gen,
      day := if pyTruthyInt year then some [intToText (year.getD 0)] else t.day })

/-- The part of a string before its first slash (Python `s.split("/")[0]`). -/
def beforeSlash (s : String) : String :=
  String.mk (s.data.takeWhile (fun c => !(c == '/')))

/-- src/metadata.py `get_track_nr`.  The MP3 branch catches `TypeError` and
`ValueError` (returning `none`) and returns `some 1` when no TRCK frame exists,
but an empty frame text list raises `IndexError`, which is not caught.  The M4A
branch performs unguarded accesses: a `None` tag container raises `TypeError`,
an absent trkn atom raises `KeyError`, an empty value list raises `IndexError`. -/
def get_track_nr (f : AudioFile) : Except PyErr (Option Int) :=
  match f with
  | .unsupported => .ok none
  | .mp3 none => .ok (some 1)
  | .mp3 (some t) =>
    match t.trck with
    | none => .ok (some 1)
    | some [] => .error .indexError
    | some (s :: _) =>
      match pyInt (beforeSlash s) with
      | some n => .ok (some n)
      | none => .ok none
  | .m4a none => .error .typeError
  | .m4a (some t) =>
    match t.trkn with
    | none => .error .keyError
    | some [] => .error .indexError
    | some ((a, _) :: _) => .ok (some a)

/-- Python `round` on a rational: round half to even.  The fractional part
`q - ⌊q⌋` is compared with one half through the exact integer quantity
`2 * (q.num - ⌊q⌋ * q.den)` versus `q.den` (the denominator is positive). -/
def pythonRound (q : ℚ) : ℤ :=
  let n := ⌊q⌋
  let twiceFrac : Int := 2 * (q.num - n * q.den)
  if twiceFrac < q.den then n
  else if (q.den : Int) < twiceFrac then n + 1
  else if n % 2 = 0 then n else n + 1

/-- Is the file one of the two supported formats? -/
def isSupported : AudioFile → Bool
  | .unsupported => false
  | .mp3 _ => true
  | .m4a _ => true

/-- src/bpm.py `find_bpm`, with the external estimation as an oracle `est`
(`none` = the estimation raised or produced no candidate): -1 for unsupported
files and failed or non-positive estimates, else the first candidate tempo. -/
def find_bpm (est : Option ℚ) (f : AudioFile) : ℚ :=
  if isSupported f = false then -1
  else
    match est with
    | some q => if q > 0 then q else -1
    | none => -1

/-- src/bpm.py `add_bpm`: no-op when a BPM value is already present, no-op when
the estimate is non-positive, else write the rounded tempo, replacing any prior
value.  The returned flag records whether the external estimation ran.  Reading
presence on an MP3/M4A file with an absent tag container raises. -/
def add_bpm (est : Option ℚ) (f : AudioFile) : Except PyErr (AudioFile × Bool) :=
  match has_bpm f with
  | .error e => .error e
  | .ok true => .ok (f, false)
  | .ok false =>
    let bpm := find_bpm est f
    let performed := isSupported f
    if bpm ≤ 0 then .ok (f, performed)
    else
      let bpm_value : Int := pythonRound bpm
      match f with
      | .unsupported => .ok (f, performed)
      | .mp3 t0 =>
        let t := t0.getD MP3Tags.empty
        .ok (.mp3 (some { t with tbpm := some [intToText bpm_value] }), performed)
      | .m4a t0 =>
        let t := t0.getD M4ATags.empty
        .ok (.m4a (some { t with tmpo := some [bpm_value] }), performed)

/-- Filesystem facts consumed by src/cover.py `add_cover`, as oracles:
whether a used directory was supplied and is valid, whether the selected image
is a supported valid image file, whether the image already resides in the used
directory, and whether a same-named file already exists at the destination. -/
structure CoverEnv where
  usedDirSupplied : Bool
  usedDirValid : Bool
  imgSupported : Bool
  coverInUsedDir : Bool
  destExists : Bool

deriving DecidableEq, Repr

/-- Relocation tail of src/cover.py `add_cover` (lines 136-150): the cover
file is moved into the used directory unless none was supplied, the cover
already resides there, or a same-named file exists; the audio file itself is
untouched by relocation. -/
def relocateMoved (env : CoverEnv) : Bool :=
  if !env.usedDirSupplied then false
  else if env.coverInUsedDir then false
  else if env.destExists then false
  else true

/-- src/cover.py `add_cover`: a supplied-but-invalid used directory, an
unsupported image, or an already-present cover each make the whole call a
no-op; otherwise the embedded picture list is replaced by the new image and the
cover is optionally relocated.  The Boolean records whether the cover file was
moved. -/
def add_cover (env : CoverEnv) (f : AudioFile) : Except PyErr (AudioFile × Bool) :=
  if env.usedDirSupplied && !env.usedDirValid then .ok (f, false)
  else if !env.imgSupported then .ok (f, false)
  else
    match has_cover f with
    | .error e => .error e
    | .ok true => .ok (f, false)
    | .ok false =>
      match f with
      | .unsupported => .ok (f, false)
      | .mp3 t0 =>
        let t := t0.getD MP3Tags.empty
        .ok (.mp3 (some { t with apic := [()] }), relocateMoved env)
      | .m4a t0 =>
        let t := t0.getD M4ATags.empty
        .ok (.m4a (some { t with covr := some [()] }), relocateMoved env)

/-- Mutable local state of src/metadata.py `add_metadata` while prompting:
the next input-stream index, whether a prompt was cancelled (the early
`return False`), which prompts were shown, and the resolved field values. -/
structure PromptState where
  idx : Nat
  stopped : Bool
  askedAlbum : Bool
  askedAlbumArtist : Bool
  askedTrack : Bool
  askedGenre : Bool
  askedYear : Bool
  album : Option String
  albumArtist : Option String
  track : Option Int
  genre : Option String
  year : Option Int

deriving DecidableEq, Repr

/-- Prompt state before any prompt ran. -/
def initPS : PromptState :=
  { idx := 0, stopped := false, askedAlbum := false, askedAlbumArtist := false,
    askedTrack := false, askedGenre := false, askedYear := false,
    album := none, albumArtist := none, track := none, genre := none, year := none }

/-- src/metadata.py lines 248-251: prompt for the album when its presence bit
is unset, with the derived single default; a cancellation marks the run stopped. -/
def stepAlbum (events : Nat → InEvent) (mflags : Nat) (defaultAlbum : String)
    (s : PromptState) : PromptState :=
  if s.stopped then s
  else if is_missing mflags MetadataFlags.HAS_ALBUM then
    let r := ask_input_str (some defaultAlbum) (events s.idx)
    let s := { s with idx := s.idx + 1, askedAlbum := true, album := r.2 }
    if r.1 = TerminalResult.EXIT then { s with stopped := true } else s
  else s

/-- src/metadata.py lines 253-268: prompt for the album artist when its bit is
unset or the resolved album differs from the derived single default; inside that
branch, seed the track-number default from an existing tag and either prompt for
the track number or force it to 1.  `get_track_nr` may raise. -/
def stepAlbumArtistTrack (events : Nat → InEvent) (mflags : Nat)
    (defaultAlbum : String) (artistP : String) (f : AudioFile)
    (s : PromptState) : Except PyErr PromptState :=
  if s.stopped then .ok s
  else if is_missing mflags MetadataFlags.HAS_ALBUM_ARTIST
      || !(s.album == some defaultAlbum) then
    let r := ask_input_str (some artistP) (events s.idx)
    let s := { s with idx := s.idx + 1, askedAlbumArtist := true, albumArtist := r.2 }
    if r.1 = TerminalResult.EXIT then .ok { s with stopped := true }
    else
      match (if is_missing mflags MetadataFlags.HAS_TRACK_NUMBER then .ok none
             else get_track_nr f : Except PyErr (Option Int)) with
      | .error e => .error e
      | .ok raw =>
        let defaultTrack : Int := if pyTruthyInt raw then raw.getD 1 else 1
        if !(s.album == some defaultAlbum) || !(defaultTrack == 1) then
          let r2 := ask_input_int (some defaultTrack) (events s.idx)
          let s := { s with idx := s.idx + 1, askedTrack := true, track := r2.2 }
          if r2.1 = TerminalResult.EXIT then .ok { s with stopped := true } else .ok s
        else .ok { s with track := some 1 }
  else .ok s

/-- src/metadata.py lines 270-274: prompt for the genre when its bit is unset,
with an empty-string default (which Python treats as no default). -/
def stepGenre (events : Nat → InEvent) (mflags : Nat) (s : PromptState) :
    PromptState :=
  if s.stopped then s
  else if is_missing mflags MetadataFlags.HAS_GENRE then
    let r := ask_input_str (some "") (events s.idx)
    let s := { s with idx := s.idx + 1, askedGenre := true, genre := r.2 }
    if r.1 = TerminalResult.EXIT then { s with stopped := true } else s
  else s

/-- src/metadata.py lines 276-280: prompt for the year when its bit is unset,
defaulting to 2025. -/
def stepYear (events : Nat → InEvent) (mflags : Nat) (s : PromptState) :
    PromptState :=
  if s.stopped then s
  else if is_missing mflags MetadataFlags.HAS_YEAR then
    let r := ask_input_int (some 2025) (events s.idx)
    let s := { s with idx := s.idx + 1, askedYear := true, year := r.2 }
    if r.1 = TerminalResult.EXIT then { s with stopped := true } else s
  else s

/-- Cover phase of src/metadata.py `add_metadata` (lines 285-288): when the
cover bit is unset and the picker selected an image, delegate to `add_cover`. -/
def coverStep (mflags : Nat) (coverSel : Option CoverEnv) (f : AudioFile) :
    Except PyErr (AudioFile × Bool) :=
  if is_missing mflags MetadataFlags.HAS_COVER then
    match coverSel with
    | some cenv => add_cover cenv f
    | none => .ok (f, false)
  else .ok (f, false)

/-- BPM phase of src/metadata.py `add_metadata` (lines 290-291): when the BPM
bit is unset, delegate to `add_bpm`. -/
def bpmStep (mflags : Nat) (est : Option ℚ) (f : AudioFile) :
    Except PyErr (AudioFile × Bool) :=
  if is_missing mflags MetadataFlags.HAS_BPM then add_bpm est f else .ok (f, false)

/-- Inputs of one src/metadata.py `add_metadata` call: the file and its
basename, validity oracles for the optional directory arguments, the
interactive input stream, the outcome of the cover file picker (`none` =
nothing selected), and the tempo-estimation oracle. -/
structure MetaIn where
  file : AudioFile
  filename : String
  usedDirSupplied : Bool
  usedDirValid : Bool
  moveToSupplied : Bool
  moveToValid : Bool
  events : Nat → InEvent
  coverSel : Option CoverEnv
  bpmEst : Option ℚ

/-- Observable outcome of one `add_metadata` call: the returned Boolean
(`cont`), the file's final tag state, which prompts were shown, the resolved
album value, and whether the audio file was moved. -/
structure MetaOut where
  cont : Bool
  file : AudioFile
  askedAlbum : Bool
  askedAlbumArtist : Bool
  askedTrack : Bool
  askedGenre : Bool
  askedYear : Bool
  albumVal : Option String
  moved : Bool

deriving DecidableEq, Repr

/-- Outcome of the early `return True` paths of `add_metadata` (unsupported
file, invalid directory argument, unparsable filename): nothing happens. -/
def skipOut (inp : MetaIn) : MetaOut :=
  { cont := true, file := inp.file, askedAlbum := false, askedAlbumArtist := false,
    askedTrack := false, askedGenre := false, askedYear := false,
    albumVal := none, moved := false }

/-- Outcome of the `return False` paths of `add_metadata` (a cancelled prompt):
the tag store is untouched. -/
def stopOut (inp : MetaIn) (s : PromptState) : MetaOut :=
  { cont := false, file := inp.file, askedAlbum := s.askedAlbum,
    askedAlbumArtist := s.askedAlbumArtist, askedTrack := s.askedTrack,
    askedGenre := s.askedGenre, askedYear := s.askedYear,
    albumVal := s.album, moved := false }

/-- src/metadata.py `add_metadata`: guard checks, filename parsing, the prompt
sequence, the single `set_basic_metadata` save (with `disc_nr` hard-coded to 1),
the delegated cover and BPM filling, and the optional move. -/
def add_metadata (inp : MetaIn) : Except PyErr MetaOut :=
  let flags := check_metadata inp.file
  if flags < 0 then .ok (skipOut inp)
  else if inp.usedDirSupplied && !inp.usedDirValid then .ok (skipOut inp)
  else if inp.moveToSupplied && !inp.moveToValid then .ok (skipOut inp)
  else
    match parse_filename inp.filename with
    | none => .ok (skipOut inp)
    | some (artistP, titleP) =>
      let mflags := flags.toNat
      let title := if is_missing mflags MetadataFlags.HAS_TITLE then some titleP else none
      let artist := if is_missing mflags MetadataFlags.HAS_ARTIST then some artistP else none
      let defaultAlbum := titleP ++ " - Single"
      let s1 := stepAlbum inp.events mflags defaultAlbum initPS
      match stepAlbumArtistTrack inp.events mflags defaultAlbum artistP inp.file s1 with
      | .error e => .error e
      | .ok s2 =>
        let s3 := stepGenre inp.events mflags s2
        let s4 := stepYear inp.events mflags s3
        if s4.stopped then .ok (stopOut inp s4)
        else
          let f1 := set_basic_metadata inp.file title artist s4.album s4.albumArtist
            s4.track (some 1) s4.genre s4.year
          match coverStep mflags inp.coverSel f1 with
          | .error e => .error e
          | .ok (f2, _) =>
            match bpmStep mflags inp.bpmEst f2 with
            | .error e => .error e
            | .ok (f3, _) =>
              .ok { cont := true, file := f3, askedAlbum := s4.askedAlbum,
                    askedAlbumArtist := s4.askedAlbumArtist, askedTrack := s4.askedTrack,
                    askedGenre := s4.askedGenre, askedYear := s4.askedYear,
                    albumVal := s4.album, moved := inp.moveToSupplied }

/-- Final tag state a file ends up with after `add_metadata` (its input state
when the call raised). -/
def processedFile (x : MetaIn) : AudioFile :=
  match add_metadata x with
  | .ok o => o.file
  | .error _ => x.file

/-- Directory-validity oracles of src/metadata.py `add_metadata_all`. -/
structure BatchIn where
  audioDirValid : Bool
  coverDirValid : Bool
  usedDirSupplied : Bool
  usedDirValid : Bool
  moveToSupplied : Bool
  moveToValid : Bool

deriving DecidableEq, Repr

/-- Iteration of src/metadata.py `add_metadata_all` (lines 331-337): process
files in order, returning (halting) as soon as a call reports `False`; the
remaining files keep their tag state. -/
def batchGo : List MetaIn → Except PyErr (List AudioFile)
  | [] => .ok []
  | x :: rest =>
    match add_metadata x with
    | .error e => .error e
    | .ok o =>
      if o.cont then
        match batchGo rest with
        | .error e => .error e
        | .ok l => .ok (o.file :: l)
      else .ok (o.file :: rest.map (fun y => y.file))

/-- src/metadata.py `add_metadata_all`: validate every supplied directory up
front (any invalid aborts the whole batch before touching a file), then iterate. -/
def add_metadata_all (b : BatchIn) (inputs : List MetaIn) :
    Except PyErr (List AudioFile) :=
  if !b.audioDirValid then .ok (inputs.map (fun y => y.file))
  else if !b.coverDirValid then .ok (inputs.map (fun y => y.file))
  else if b.usedDirSupplied && !b.usedDirValid then .ok (inputs.map (fun y => y.file))
  else if b.moveToSupplied && !b.moveToValid then .ok (inputs.map (fun y => y.file))
  else batchGo inputs

/-! ### Monotonicity of the presence bitmask (C8) -/

/-- Bitmask containment: every set bit of the first mask is set in the second. -/
def bitmaskSubset (a b : Nat) : Prop :=
  ∀ k, a.testBit k = true → b.testBit k = true

/-! ### Frame properties of the write phase -/

/-- The stored title value of a file (frame TIT2 resp. atom nam). -/
def titleOf : AudioFile → Option (List String)
  | .mp3 (some t) => t.tit2
  | .m4a (some t) => t.nam
  | _ => none

/-- The stored artist value of a file (frame TPE1 resp. atom ART). -/
def artistOf : AudioFile → Option (List String)
  | .mp3 (some t) => t.tpe1
  | .m4a (some t) => t.art
  | _ => none

/-- The stored album value of a file (frame TALB resp. atom alb). -/
def albumOf : AudioFile → Option (List String)
  | .mp3 (some t) => t.talb
  | .m4a (some t) => t.alb
  | _ => none

/-- The stored genre value of a file (frame TCON resp. atom gen). -/
def genreOf : AudioFile → Option (List String)
  | .mp3 (some t) => t.tcon
  | .m4a (some t) => t.gen
  | _ => none

/-- The stored year value of a file (frame TYER resp. atom day). -/
def yearOf : AudioFile → Option (List String)
  | .mp3 (some t) => t.tyer
  | .m4a (some t) => t.day
  | _ => none

/-- The file's disc-number entry holds exactly the value 1 (trivially true for
an unsupported file, which is never written). -/
def discIsOne : AudioFile → Prop
  | .unsupported => True
  | .mp3 none => False
  | .mp3 (some t) => t.tpos = some [intToText 1]
  | .m4a none => False
  | .m4a (some t) => t.disk = some [(1, 0)]

/-- Tag container reached by answering every prompt of a fresh M4A file
with the line "2". -/
def probeTagsC5 : M4ATags :=
  { nam := some ["T"], art := some ["A"], alb := some ["2"], aart := some ["2"],
    trkn := some [(2, 0)], disk := some [(1, 0)], gen := some ["2"],
    day := some ["2"], tmpo := none, covr := none }

/-- A fresh M4A file named "A - T.m4a" whose prompts are all answered "2". -/
def probeInC5 : MetaIn :=
  { file := .m4a (some M4ATags.empty), filename := "A - T.m4a",
    usedDirSupplied := false, usedDirValid := false,
    moveToSupplied := false, moveToValid := false,
    events := fun _ => .line "2", coverSel := none, bpmEst := none }

/-- The outcome of processing `probeInC5`. -/
def probeOutC5 : MetaOut :=
  { cont := true, file := .m4a (some probeTagsC5), askedAlbum := true,
    askedAlbumArtist := true, askedTrack := true, askedGenre := true,
    askedYear := true, albumVal := some "2", moved := false }

/-! ### Frame effect of the single save (C2) -/


/-- An M4A container with every tracked field present (disc number 2). -/
def probeTagsC2 : M4ATags :=
  { nam := some ["T"], art := some ["A"], alb := some ["Al"], aart := some ["AA"],
    trkn := some [(5, 0)], disk := some [(2, 0)], gen := some ["G"],
    day := some ["2020"], tmpo := some [120], covr := some [()] }

/-- The fully tagged file processed with prompt answers "NewAA" then "7". -/
def probeInC2 : MetaIn :=
  { file := .m4a (some probeTagsC2), filename := "A - T.m4a",
    usedDirSupplied := false, usedDirValid := false,
    moveToSupplied := false, moveToValid := false,
    events := fun n => if n == 0 then .line "NewAA" else .line "7",
    coverSel := none, bpmEst := none }

/-- The container after processing: disc overwritten with 1, album artist and
track number overwritten by the prompt answers. -/
def probeOutTagsC2 : M4ATags :=
  { nam := some ["T"], art := some ["A"], alb := some ["Al"], aart := some ["NewAA"],
    trkn := some [(7, 0)], disk := some [(1, 0)], gen := some ["G"],
    day := some ["2020"], tmpo := some [120], covr := some [()] }

/-- The observable outcome of processing `probeInC2`. -/
def probeOutC2 : MetaOut :=
  { cont := true, file := .m4a (some probeOutTagsC2), askedAlbum := false,
    askedAlbumArtist := true, askedTrack := true, askedGenre := false,
    askedYear := false, albumVal := none, moved := false }

/-! ### Bit-level characterization of the presence bitmask -/

lemma flag_artist : MetadataFlags.HAS_ARTIST = 2 ^ 0 := by decide

lemma flag_title : MetadataFlags.HAS_TITLE = 2 ^ 1 := by decide

lemma flag_album : MetadataFlags.HAS_ALBUM = 2 ^ 2 := by decide

lemma flag_album_artist : MetadataFlags.HAS_ALBUM_ARTIST = 2 ^ 3 := by decide

lemma flag_track : MetadataFlags.HAS_TRACK_NUMBER = 2 ^ 4 := by decide

lemma flag_disc : MetadataFlags.HAS_DISC_NUMBER = 2 ^ 5 := by decide

lemma flag_genre : MetadataFlags.HAS_GENRE = 2 ^ 6 := by decide

lemma flag_year : MetadataFlags.HAS_YEAR = 2 ^ 7 := by decide

lemma flag_cover : MetadataFlags.HAS_COVER = 2 ^ 8 := by decide

lemma flag_bpm : MetadataFlags.HAS_BPM = 2 ^ 9 := by decide

/-- Missing a power-of-two flag is exactly having that bit unset. -/
lemma is_missing_two_pow (m k : Nat) : is_missing m (2 ^ k) = !(m.testBit k) := by
  have h := Nat.and_two_pow m k
  cases hb : m.testBit k <;>
    simp [is_missing, MetadataFlags.NONE, h, hb, Nat.pos_iff_ne_zero, Nat.pow_eq_zero]

/-- Each of the ten bits of the OR-chain reflects exactly its own condition. -/
lemma presenceBits_testBit (c1 c2 c3 c4 c5 c6 c7 c8 c9 c10 : Bool) :
    (presenceBits c1 c2 c3 c4 c5 c6 c7 c8 c9 c10).testBit 0 = c2 ∧
    (presenceBits c1 c2 c3 c4 c5 c6 c7 c8 c9 c10).testBit 1 = c1 ∧
    (presenceBits c1 c2 c3 c4 c5 c6 c7 c8 c9 c10).testBit 2 = c3 ∧
    (presenceBits c1 c2 c3 c4 c5 c6 c7 c8 c9 c10).testBit 3 = c4 ∧
    (presenceBits c1 c2 c3 c4 c5 c6 c7 c8 c9 c10).testBit 4 = c5 ∧
    (presenceBits c1 c2 c3 c4 c5 c6 c7 c8 c9 c10).testBit 5 = c6 ∧
    (presenceBits c1 c2 c3 c4 c5 c6 c7 c8 c9 c10).testBit 6 = c7 ∧
    (presenceBits c1 c2 c3 c4 c5 c6 c7 c8 c9 c10).testBit 7 = c8 ∧
    (presenceBits c1 c2 c3 c4 c5 c6 c7 c8 c9 c10).testBit 8 = c9 ∧
    (presenceBits c1 c2 c3 c4 c5 c6 c7 c8 c9 c10).testBit 9 = c10 := by
  revert c1 c2 c3 c4 c5 c6 c7 c8 c9 c10
  decide

/-- The OR-chain only ever sets the ten tracked bits. -/
lemma presenceBits_lt (c1 c2 c3 c4 c5 c6 c7 c8 c9 c10 : Bool) :
    presenceBits c1 c2 c3 c4 c5 c6 c7 c8 c9 c10 < 1024 := by
  revert c1 c2 c3 c4 c5 c6 c7 c8 c9 c10
  decide

/-- `check_metadata` of a present M4A container, as a natural number. -/
lemma check_metadata_m4a_toNat (t : M4ATags) :
    (check_metadata (.m4a (some t))).toNat = m4aAllBits t := by
  simp [check_metadata]

/-- `check_metadata` of a present MP3 container, as a natural number. -/
lemma check_metadata_mp3_toNat (t : MP3Tags) :
    (check_metadata (.mp3 (some t))).toNat = mp3AllBits t := by
  simp [check_metadata]

/-- C1 counterexample: in an M4A container storing an *empty* title string and
a *zero* track number, `check_metadata` sets both the title bit and the
track-number bit, although the claim requires a bit to stay unset for a field
stored with an empty value or a zero numeric value. -/
theorem check_metadata_sets_bit_for_empty_value :
    is_missing
      (check_metadata (.m4a (some { M4ATags.empty with
        nam := some [""], trkn := some [(0, 0)] }))).toNat
      MetadataFlags.HAS_TITLE = false ∧
    is_missing
      (check_metadata (.m4a (some { M4ATags.empty with
        nam := some [""], trkn := some [(0, 0)] }))).toNat
      MetadataFlags.HAS_TRACK_NUMBER = false := by
  decide

/-- C1 amended: each of the eight basic bits is set iff its key is *present* in
the tag container, regardless of the stored value; only the BPM bit demands a
non-empty, parseable, strictly positive value, and the cover bit demands at
least one embedded picture.  Stated for both formats, bit positions in enum
order (artist 0, title 1, album 2, album-artist 3, track 4, disc 5, genre 6,
year 7, cover 8, BPM 9). -/
theorem check_metadata_bit_characterization (t : M4ATags) (u : MP3Tags) :
    ((check_metadata (.m4a (some t))).toNat.testBit 0 = t.art.isSome ∧
     (check_metadata (.m4a (some t))).toNat.testBit 1 = t.nam.isSome ∧
     (check_metadata (.m4a (some t))).toNat.testBit 2 = t.alb.isSome ∧
     (check_metadata (.m4a (some t))).toNat.testBit 3 = t.aart.isSome ∧
     (check_metadata (.m4a (some t))).toNat.testBit 4 = t.trkn.isSome ∧
     (check_metadata (.m4a (some t))).toNat.testBit 5 = t.disk.isSome ∧
     (check_metadata (.m4a (some t))).toNat.testBit 6 = t.gen.isSome ∧
     (check_metadata (.m4a (some t))).toNat.testBit 7 = t.day.isSome ∧
     (check_metadata (.m4a (some t))).toNat.testBit 8 = m4aHasCover t ∧
     (check_metadata (.m4a (some t))).toNat.testBit 9 = m4aHasBpm t) ∧
    ((check_metadata (.mp3 (some u))).toNat.testBit 0 = u.tpe1.isSome ∧
     (check_metadata (.mp3 (some u))).toNat.testBit 1 = u.tit2.isSome ∧
     (check_metadata (.mp3 (some u))).toNat.testBit 2 = u.talb.isSome ∧
     (check_metadata (.mp3 (some u))).toNat.testBit 3 = u.tpe2.isSome ∧
     (check_metadata (.mp3 (some u))).toNat.testBit 4 = u.trck.isSome ∧
     (check_metadata (.mp3 (some u))).toNat.testBit 5 = u.tpos.isSome ∧
     (check_metadata (.mp3 (some u))).toNat.testBit 6 = u.tcon.isSome ∧
     (check_metadata (.mp3 (some u))).toNat.testBit 7 = u.tyer.isSome ∧
     (check_metadata (.mp3 (some u))).toNat.testBit 8 = mp3HasCover (some u) ∧
     (check_metadata (.mp3 (some u))).toNat.testBit 9 = mp3HasBpm u) := by
  rw [check_metadata_m4a_toNat, check_metadata_mp3_toNat]
  exact ⟨presenceBits_testBit t.nam.isSome t.art.isSome t.alb.isSome t.aart.isSome
      t.trkn.isSome t.disk.isSome t.gen.isSome t.day.isSome (m4aHasCover t) (m4aHasBpm t),
    presenceBits_testBit u.tit2.isSome u.tpe1.isSome u.talb.isSome u.tpe2.isSome
      u.trck.isSome u.tpos.isSome u.tcon.isSome u.tyer.isSome
      (mp3HasCover (some u)) (mp3HasBpm u)⟩

/-- C10: for an M4A file with a present tag container, `get_track_nr` raises
`KeyError` (rather than returning `None`) exactly when the trkn atom is absent;
and under the precondition that the track-number presence bit of
`check_metadata` is set — the only condition under which `add_metadata` calls
it — that `KeyError` branch is unreachable. -/
theorem get_track_nr_m4a_keyerror_unreachable (t : M4ATags) :
    (t.trkn = none → get_track_nr (.m4a (some t)) = .error .keyError) ∧
    (is_missing (check_metadata (.m4a (some t))).toNat
        MetadataFlags.HAS_TRACK_NUMBER = false →
      get_track_nr (.m4a (some t)) ≠ .error .keyError) := by
  constructor
  · intro h
    simp [get_track_nr, h]
  · intro h
    rw [check_metadata_m4a_toNat, flag_track, is_missing_two_pow] at h
    have hbit : (m4aAllBits t).testBit 4 = true := by
      cases hb : (m4aAllBits t).testBit 4 <;> simp [hb] at h ⊢
    have hsome : t.trkn.isSome = true := by
      have := (presenceBits_testBit t.nam.isSome t.art.isSome t.alb.isSome t.aart.isSome
        t.trkn.isSome t.disk.isSome t.gen.isSome t.day.isSome
        (m4aHasCover t) (m4aHasBpm t)).2.2.2.2.1
      rw [← this]
      exact hbit
    obtain ⟨l, hl⟩ := Option.isSome_iff_exists.mp hsome
    cases l with
    | nil => simp [get_track_nr, hl]
    | cons a rest =>
      cases a with
      | mk x y => simp [get_track_nr, hl]

/-- C10 witness: a concrete container without a trkn atom raises `KeyError`,
and a concrete container whose track bit is set does not. -/
theorem get_track_nr_m4a_keyerror_unreachable_witness :
    get_track_nr (.m4a (some M4ATags.empty)) = .error .keyError ∧
    get_track_nr (.m4a (some { M4ATags.empty with trkn := some [(3, 0)] }))
      ≠ .error .keyError :=
  ⟨(get_track_nr_m4a_keyerror_unreachable M4ATags.empty).1 rfl,
   (get_track_nr_m4a_keyerror_unreachable
      { M4ATags.empty with trkn := some [(3, 0)] }).2 (by decide)⟩

/-- The OR-chain is monotone in each of its ten conditions. -/
lemma presenceBits_mono (c1 c2 c3 c4 c5 c6 c7 c8 c9 c10 d1 d2 d3 d4 d5 d6 d7 d8 d9 d10 : Bool)
    (h1 : c1 = true → d1 = true) (h2 : c2 = true → d2 = true)
    (h3 : c3 = true → d3 = true) (h4 : c4 = true → d4 = true)
    (h5 : c5 = true → d5 = true) (h6 : c6 = true → d6 = true)
    (h7 : c7 = true → d7 = true) (h8 : c8 = true → d8 = true)
    (h9 : c9 = true → d9 = true) (h10 : c10 = true → d10 = true) :
    bitmaskSubset (presenceBits c1 c2 c3 c4 c5 c6 c7 c8 c9 c10)
      (presenceBits d1 d2 d3 d4 d5 d6 d7 d8 d9 d10) := by
  intro k hk
  by_cases hklt : k < 10
  · obtain ⟨p0, p1, p2, p3, p4, p5, p6, p7, p8, p9⟩ :=
      presenceBits_testBit c1 c2 c3 c4 c5 c6 c7 c8 c9 c10
    obtain ⟨q0, q1, q2, q3, q4, q5, q6, q7, q8, q9⟩ :=
      presenceBits_testBit d1 d2 d3 d4 d5 d6 d7 d8 d9 d10
    interval_cases k <;> simp_all
  · have hlt : presenceBits c1 c2 c3 c4 c5 c6 c7 c8 c9 c10 < 2 ^ k := by
      calc presenceBits c1 c2 c3 c4 c5 c6 c7 c8 c9 c10 < 1024 := presenceBits_lt _ _ _ _ _ _ _ _ _ _
        _ = 2 ^ 10 := by norm_num
        _ ≤ 2 ^ k := Nat.pow_le_pow_right (by norm_num) (by omega)
    rw [Nat.testBit_eq_false_of_lt hlt] at hk
    exact absurd hk (by simp)

/-- C8: the presence bitmask is monotonic under field addition: for every tag
container and every tracked field absent from it, storing a value under that
field's key can only set bits of `check_metadata`, never clear them (the new
bitmask is a superset of the old one).  Stated for all ten fields of both
formats. -/
theorem check_metadata_monotone_under_addition :
    (∀ (t : M4ATags) (v : List String), t.nam = none →
      bitmaskSubset (check_metadata (.m4a (some t))).toNat
        (check_metadata (.m4a (some { t with nam := some v }))).toNat) ∧
    (∀ (t : M4ATags) (v : List String), t.art = none →
      bitmaskSubset (check_metadata (.m4a (some t))).toNat
        (check_metadata (.m4a (some { t with art := some v }))).toNat) ∧
    (∀ (t : M4ATags) (v : List String), t.alb = none →
      bitmaskSubset (check_metadata (.m4a (some t))).toNat
        (check_metadata (.m4a (some { t with alb := some v }))).toNat) ∧
    (∀ (t : M4ATags) (v : List String), t.aart = none →
      bitmaskSubset (check_metadata (.m4a (some t))).toNat
        (check_metadata (.m4a (some { t with aart := some v }))).toNat) ∧
    (∀ (t : M4ATags) (v : List (Int × Int)), t.trkn = none →
      bitmaskSubset (check_metadata (.m4a (some t))).toNat
        (check_metadata (.m4a (some { t with trkn := some v }))).toNat) ∧
    (∀ (t : M4ATags) (v : List (Int × Int)), t.disk = none →
      bitmaskSubset (check_metadata (.m4a (some t))).toNat
        (check_metadata (.m4a (some { t with disk := some v }))).toNat) ∧
    (∀ (t : M4ATags) (v : List String), t.gen = none →
      bitmaskSubset (check_metadata (.m4a (some t))).toNat
        (check_metadata (.m4a (some { t with gen := some v }))).toNat) ∧
    (∀ (t : M4ATags) (v : List String), t.day = none →
      bitmaskSubset (check_metadata (.m4a (some t))).toNat
        (check_metadata (.m4a (some { t with day := some v }))).toNat) ∧
    (∀ (t : M4ATags) (v : List Int), t.tmpo = none →
      bitmaskSubset (check_metadata (.m4a (some t))).toNat
        (check_metadata (.m4a (some { t with tmpo := some v }))).toNat) ∧
    (∀ (t : M4ATags) (v : List Unit), t.covr = none →
      bitmaskSubset (check_metadata (.m4a (some t))).toNat
        (check_metadata (.m4a (some { t with covr := some v }))).toNat) ∧
    (∀ (t : MP3Tags) (v : List String), t.tit2 = none →
      bitmaskSubset (check_metadata (.mp3 (some t))).toNat
        (check_metadata (.mp3 (some { t with tit2 := some v }))).toNat) ∧
    (∀ (t : MP3Tags) (v : List String), t.tpe1 = none →
      bitmaskSubset (check_metadata (.mp3 (some t))).toNat
        (check_metadata (.mp3 (some { t with tpe1 := some v }))).toNat) ∧
    (∀ (t : MP3Tags) (v : List String), t.talb = none →
      bitmaskSubset (check_metadata (.mp3 (some t))).toNat
        (check_metadata (.mp3 (some { t with talb := some v }))).toNat) ∧
    (∀ (t : MP3Tags) (v : List String), t.tpe2 = none →
      bitmaskSubset (check_metadata (.mp3 (some t))).toNat
        (check_metadata (.mp3 (some { t with tpe2 := some v }))).toNat) ∧
    (∀ (t : MP3Tags) (v : List String), t.trck = none →
      bitmaskSubset (check_metadata (.mp3 (some t))).toNat
        (check_metadata (.mp3 (some { t with trck := some v }))).toNat) ∧
    (∀ (t : MP3Tags) (v : List String), t.tpos = none →
      bitmaskSubset (check_metadata (.mp3 (some t))).toNat
        (check_metadata (.mp3 (some { t with tpos := some v }))).toNat) ∧
    (∀ (t : MP3Tags) (v : List String), t.tcon = none →
      bitmaskSubset (check_metadata (.mp3 (some t))).toNat
        (check_metadata (.mp3 (some { t with tcon := some v }))).toNat) ∧
    (∀ (t : MP3Tags) (v : List String), t.tyer = none →
      bitmaskSubset (check_metadata (.mp3 (some t))).toNat
        (check_metadata (.mp3 (some { t with tyer := some v }))).toNat) ∧
    (∀ (t : MP3Tags) (v : List String), t.tbpm = none →
      bitmaskSubset (check_metadata (.mp3 (some t))).toNat
        (check_metadata (.mp3 (some { t with tbpm := some v }))).toNat) ∧
    (∀ (t : MP3Tags) (v : List Unit), t.apic = [] →
      bitmaskSubset (check_metadata (.mp3 (some t))).toNat
        (check_metadata (.mp3 (some { t with apic := v }))).toNat) := by
  refine ⟨?_, ?_, ?_, ?_, ?_, ?_, ?_, ?_, ?_, ?_, ?_, ?_, ?_, ?_, ?_, ?_, ?_, ?_, ?_, ?_⟩ <;>
    (intro t v h
     first
     | (rw [check_metadata_m4a_toNat, check_metadata_m4a_toNat]
        unfold m4aAllBits
        apply presenceBits_mono <;>
          (intro hh
           first
           | exact hh
           | rfl
           | simp_all [m4aHasBpm, m4aHasCover]))
     | (rw [check_metadata_mp3_toNat, check_metadata_mp3_toNat]
        unfold mp3AllBits
        apply presenceBits_mono <;>
          (intro hh
           first
           | exact hh
           | rfl
           | simp_all [mp3HasBpm, mp3HasCover])))

/-- C8 witness: adding a title to a container that already has an artist keeps
the artist bit set. -/
theorem check_metadata_monotone_under_addition_witness :
    (check_metadata (.m4a (some { M4ATags.empty with
      art := some ["a"], nam := some ["x"] }))).toNat.testBit 0 = true :=
  check_metadata_monotone_under_addition.1
    { M4ATags.empty with art := some ["a"] } ["x"] rfl 0 (by decide)

/-! ### Decimal print/parse round trip -/

/-- A digit character is a digit, is not whitespace, is not a sign, and decodes
to its value. -/
lemma digitChar_spec (d : Nat) (h : d < 10) :
    (digitChar d).isDigit = true ∧ isPySpace (digitChar d) = false ∧
    ((digitChar d) == '+') = false ∧ ((digitChar d) == '-') = false ∧
    (digitChar d).toNat - 48 = d := by
  interval_cases d <;> decide

/-- Appending one character multiplies the decoded value by ten and adds it. -/
lemma digitsVal_append (l : List Char) (c : Char) :
    digitsVal (l ++ [c]) = digitsVal l * 10 + (c.toNat - 48) := by
  simp [digitsVal, List.foldl_append]

/-- With enough fuel, `natTextAux` produces a non-empty list of digit
characters that decodes back to its input. -/
lemma natTextAux_spec : ∀ fuel n, n < fuel →
    natTextAux fuel n ≠ [] ∧
    (∀ c ∈ natTextAux fuel n, c.isDigit = true ∧ isPySpace c = false ∧
      (c == '+') = false ∧ (c == '-') = false) ∧
    digitsVal (natTextAux fuel n) = n := by
  intro fuel
  induction fuel with
  | zero => intro n h; omega
  | succ fuel ih =>
    intro n h
    by_cases h10 : n < 10
    · obtain ⟨hd, hsp, hp, hm, hv⟩ := digitChar_spec n h10
      refine ⟨by simp [natTextAux, h10], ?_, ?_⟩
      · intro c hc
        simp [natTextAux, h10] at hc
        subst hc
        exact ⟨hd, hsp, hp, hm⟩
      · simp [natTextAux, h10, digitsVal, hv]
    · have hdivlt : n / 10 < fuel := by
        have h1 : n / 10 < n := Nat.div_lt_self (by omega) (by omega)
        omega
      obtain ⟨hne, hall, hval⟩ := ih (n / 10) hdivlt
      obtain ⟨hd, hsp, hp, hm, hv⟩ := digitChar_spec (n % 10) (Nat.mod_lt _ (by omega))
      refine ⟨by simp [natTextAux, h10], ?_, ?_⟩
      · intro c hc
        simp only [natTextAux, if_neg h10, List.mem_append, List.mem_singleton] at hc
        rcases hc with hc | hc
        · exact hall c hc
        · subst hc; exact ⟨hd, hsp, hp, hm⟩
      · rw [natTextAux, if_neg h10, digitsVal_append, hval, hv]
        omega

/-- `dropWhile` is the identity on a list with no leading match. -/
lemma dropWhile_nonspace (l : List Char) (h : ∀ c ∈ l, isPySpace c = false) :
    l.dropWhile isPySpace = l := by
  cases l with
  | nil => rfl
  | cons c cs => simp [List.dropWhile_cons, h c (by simp)]

/-- Stripping is the identity on a list without whitespace. -/
lemma pyStripL_nonspace (l : List Char) (h : ∀ c ∈ l, isPySpace c = false) :
    pyStripL l = l := by
  unfold pyStripL
  rw [dropWhile_nonspace l h,
    dropWhile_nonspace l.reverse (by intro c hc; exact h c (List.mem_reverse.mp hc)),
    List.reverse_reverse]

/-- Printing a non-negative integer and parsing it back is the identity. -/
lemma pyInt_intToText (v : Int) (h : 0 ≤ v) : pyInt (intToText v) = some v := by
  obtain ⟨hne, hall, hval⟩ := natTextAux_spec (v.toNat + 1) v.toNat (Nat.lt_succ_self _)
  have hvlt : ¬ v < 0 := by omega
  have hdata : (intToText v).data = natTextAux (v.toNat + 1) v.toNat := by
    simp [intToText, hvlt]
  have hstrip : pyStripL (intToText v).data = natTextAux (v.toNat + 1) v.toNat := by
    rw [hdata]
    exact pyStripL_nonspace _ (fun c hc => (hall c hc).2.1)
  unfold pyInt
  rw [hstrip]
  cases hl : natTextAux (v.toNat + 1) v.toNat with
  | nil => exact absurd hl hne
  | cons c rest =>
    have hc := hall c (by rw [hl]; simp)
    simp only [hc.2.2.1, hc.2.2.2, Bool.false_eq_true, if_false]
    have hdig : (c :: rest) ≠ [] ∧ (c :: rest).all Char.isDigit := by
      refine ⟨by simp, ?_⟩
      rw [List.all_eq_true]
      intro x hx
      exact (hall x (by rw [hl]; exact hx)).1
    rw [parseDigits, if_pos hdig, ← hl, hval]
    simp [Int.toNat_of_nonneg h]

/-- C3 counterexample: the integer prompt with a default, fed an empty line,
parses the empty string (which fails) before any default check, so it returns
`FAILED` with the default rather than a successful result. -/
theorem ask_input_int_empty_line_fails :
    ask_input_int (some 5) (.line "") = (.FAILED, some 5) ∧
    ask_input_int (some 5) (.line "") ≠ (.SUCCESS, some 5) := by
  constructor <;> decide

/-- C3 amended: on an empty input line the string variant succeeds with the
default only when the default is a non-empty string and the boolean variant
always succeeds with its default, while the integer variant fails (pairing the
default with `FAILED`); an empty line with an absent (or empty-string) default
fails; a cancellation signal propagates as `EXIT` immediately in all three
variants. -/
theorem ask_input_empty_line_amended :
    (∀ d : String, d ≠ "" → ask_input_str (some d) (.line "") = (.SUCCESS, some d)) ∧
    (∀ d : Bool, ask_input_bool d (.line "") = (.SUCCESS, d)) ∧
    (∀ d : Option Int, ask_input_int d (.line "") = (.FAILED, d)) ∧
    ask_input_str none (.line "") = (.FAILED, none) ∧
    ask_input_str (some "") (.line "") = (.FAILED, none) ∧
    (∀ d : Option String, ask_input_str d .interrupt = (.EXIT, none)) ∧
    (∀ d : Option Int, ask_input_int d .interrupt = (.EXIT, d)) ∧
    (∀ d : Bool, ask_input_bool d .interrupt = (.EXIT, d)) := by
  refine ⟨?_, fun d => rfl, fun d => rfl, by decide, by decide,
    fun d => rfl, fun d => rfl, fun d => rfl⟩
  intro d hd
  have ht : pyTruthyStr (some d) = true := by simp [pyTruthyStr, hd]
  simp [ask_input_str, ht, pyStrip, pyStripL]

/-- C3 witness: the amended behavior at concrete defaults. -/
theorem ask_input_empty_line_amended_witness :
    ask_input_str (some "x") (.line "") = (.SUCCESS, some "x") ∧
    ask_input_bool true (.line "") = (.SUCCESS, true) ∧
    ask_input_int (some 7) (.line "") = (.FAILED, some 7) :=
  ⟨ask_input_empty_line_amended.1 "x" (by decide),
   ask_input_empty_line_amended.2.1 true,
   ask_input_empty_line_amended.2.2.1 (some 7)⟩

/-- C9: when a used directory is supplied but invalid, `add_cover` is a
complete no-op — the cover is not embedded (even if supported and the file has
no cover) and nothing is moved. -/
theorem add_cover_invalid_used_dir_noop (env : CoverEnv) (f : AudioFile)
    (h1 : env.usedDirSupplied = true) (h2 : env.usedDirValid = false) :
    add_cover env f = .ok (f, false) := by
  simp [add_cover, h1, h2]

/-- C9 witness: a supported image and a coverless file are still untouched when
the used directory is invalid. -/
theorem add_cover_invalid_used_dir_noop_witness :
    add_cover { usedDirSupplied := true, usedDirValid := false,
                imgSupported := true, coverInUsedDir := false, destExists := false }
      (.m4a (some M4ATags.empty)) = .ok (.m4a (some M4ATags.empty), false) :=
  add_cover_invalid_used_dir_noop _ _ rfl rfl

/-- C4 counterexample: with an estimated tempo of 3/10, the first call rounds
it to 0 and writes that tempo value, yet `has_bpm` remains false, so the second
call performs the external estimation again — both calls estimate. -/
theorem add_bpm_estimates_twice_after_zero_round :
    add_bpm (some (mkRat 3 10)) (.m4a (some M4ATags.empty)) =
      .ok (.m4a (some { M4ATags.empty with tmpo := some [0] }), true) ∧
    m4aHasBpm { M4ATags.empty with tmpo := some [0] } = false ∧
    add_bpm (some (mkRat 3 10)) (.m4a (some { M4ATags.empty with tmpo := some [0] })) =
      .ok (.m4a (some { M4ATags.empty with tmpo := some [0] }), true) := by
  refine ⟨by decide, by decide, by decide⟩

/-- C4 amended: when the estimate is positive and rounds to a *positive*
integer, two successive `add_bpm` calls perform the external estimation at most
once: the first call's write makes `has_bpm` true, so the second call is a
no-op.  (When the estimate fails or rounds to zero, both calls may estimate.) -/
theorem add_bpm_estimation_at_most_once (est : Option ℚ) (q : ℚ)
    (f f1 f2 : AudioFile) (b1 b2 : Bool)
    (hq : est = some q) (hpos : 0 < q) (hround : 1 ≤ pythonRound q)
    (h1 : add_bpm est f = .ok (f1, b1)) (h2 : add_bpm est f1 = .ok (f2, b2)) :
    (b1 = false ∨ b2 = false) ∧ f2 = f1 := by
  subst hq
  have hgt : (q > 0) = True := by simp [hpos]
  have hnle : ¬ (q ≤ 0) := not_le.mpr hpos
  cases f with
  | unsupported =>
    simp [add_bpm, has_bpm, find_bpm, isSupported] at h1
    obtain ⟨hf1, hb1⟩ := h1
    subst hf1
    simp [add_bpm, has_bpm, find_bpm, isSupported] at h2
    obtain ⟨hf2, hb2⟩ := h2
    exact ⟨Or.inl hb1, hf2.symm⟩
  | mp3 t0 =>
    cases t0 with
    | none => simp [add_bpm, has_bpm] at h1
    | some t =>
      by_cases hb : mp3HasBpm t
      · simp [add_bpm, has_bpm, hb] at h1
        obtain ⟨hf1, hb1⟩ := h1
        subst hf1
        simp [add_bpm, has_bpm, hb] at h2
        exact ⟨Or.inl hb1, h2.1.symm⟩
      · simp [add_bpm, has_bpm, hb, find_bpm, isSupported, hgt, hnle] at h1
        obtain ⟨hf1, hb1⟩ := h1
        have hparse : pyInt (intToText (pythonRound q)) = some (pythonRound q) :=
          pyInt_intToText _ (by omega)
        have hhb : mp3HasBpm { t with tbpm := some [intToText (pythonRound q)] } = true := by
          simp [mp3HasBpm, hparse]
          omega
        subst hf1
        simp [add_bpm, has_bpm, hhb] at h2
        exact ⟨Or.inr h2.2, h2.1.symm⟩
  | m4a t0 =>
    cases t0 with
    | none => simp [add_bpm, has_bpm] at h1
    | some t =>
      by_cases hb : m4aHasBpm t
      · simp [add_bpm, has_bpm, hb] at h1
        obtain ⟨hf1, hb1⟩ := h1
        subst hf1
        simp [add_bpm, has_bpm, hb] at h2
        exact ⟨Or.inl hb1, h2.1.symm⟩
      · simp [add_bpm, has_bpm, hb, find_bpm, isSupported, hgt, hnle] at h1
        obtain ⟨hf1, hb1⟩ := h1
        have hhb : m4aHasBpm { t with tmpo := some [pythonRound q] } = true := by
          simp [m4aHasBpm]
          omega
        subst hf1
        simp [add_bpm, has_bpm, hhb] at h2
        exact ⟨Or.inr h2.2, h2.1.symm⟩

/-- C4 witness: a 120 BPM estimate on an empty M4A container is written once;
the second call does not estimate and leaves the file unchanged. -/
theorem add_bpm_estimation_at_most_once_witness :
    ((true = false ∨ false = false) ∧
      AudioFile.m4a (some { M4ATags.empty with tmpo := some [120] }) =
        AudioFile.m4a (some { M4ATags.empty with tmpo := some [120] })) :=
  add_bpm_estimation_at_most_once (some (mkRat 120 1)) (mkRat 120 1)
    (.m4a (some M4ATags.empty))
    (.m4a (some { M4ATags.empty with tmpo := some [120] }))
    (.m4a (some { M4ATags.empty with tmpo := some [120] }))
    true false rfl (by decide) (by decide) (by decide) (by decide)

/-! ### Filename parsing (C6) -/

/-- A list starts with `sep` exactly when it decomposes as `sep ++ r`. -/
lemma leadsWith_iff (sep : List Char) : ∀ l, leadsWith sep l = true ↔ ∃ r, l = sep ++ r := by
  induction sep with
  | nil => intro l; simp [leadsWith]
  | cons a as ih =>
    intro l
    cases l with
    | nil => simp [leadsWith]
    | cons b bs =>
      simp only [leadsWith, Bool.and_eq_true, beq_iff_eq, ih bs, List.cons_append,
        List.cons.injEq]
      constructor
      · rintro ⟨hab, r, hr⟩
        exact ⟨r, hab.symm, hr⟩
      · rintro ⟨r, hab, hr⟩
        exact ⟨hab.symm, r, hr⟩

/-- When `splitOnFirst` finds nothing, no decomposition around the separator
exists. -/
lemma splitOnFirst_none (sep : List Char) (hsep : sep ≠ []) :
    ∀ l, splitOnFirst sep l = none → ∀ p q, l ≠ p ++ sep ++ q := by
  intro l
  induction l with
  | nil =>
    intro _ p q heq
    cases p with
    | nil =>
      cases sep with
      | nil => exact hsep rfl
      | cons c cs => simp at heq
    | cons d ds => simp at heq
  | cons c rest ih =>
    intro h p q heq
    rw [splitOnFirst] at h
    by_cases hl : leadsWith sep (c :: rest) = true
    · rw [if_pos hl] at h; exact absurd h (by simp)
    · rw [if_neg hl] at h
      cases p with
      | nil =>
        exact hl ((leadsWith_iff sep (c :: rest)).mpr ⟨q, by simpa using heq⟩)
      | cons d ds =>
        simp only [List.cons_append, List.cons.injEq] at heq
        obtain ⟨hcd, hrest⟩ := heq
        cases hrec : splitOnFirst sep rest with
        | some pq => rw [hrec] at h; cases pq; simp at h
        | none => exact ih (by rw [hrec]) ds q hrest

/-- When `splitOnFirst` returns a split, it is a decomposition around the
separator, and no decomposition has a shorter prefix. -/
lemma splitOnFirst_some (sep : List Char) :
    ∀ l p q, splitOnFirst sep l = some (p, q) →
      l = p ++ sep ++ q ∧ ∀ p' q', l = p' ++ sep ++ q' → p.length ≤ p'.length := by
  intro l
  induction l with
  | nil => intro p q h; rw [splitOnFirst] at h; exact absurd h (by simp)
  | cons c rest ih =>
    intro p q h
    rw [splitOnFirst] at h
    by_cases hl : leadsWith sep (c :: rest) = true
    · rw [if_pos hl] at h
      obtain ⟨r, hr⟩ := (leadsWith_iff sep (c :: rest)).mp hl
      simp only [Option.some.injEq, Prod.mk.injEq] at h
      obtain ⟨hp, hq⟩ := h
      subst hp
      have hdrop : (c :: rest).drop sep.length = r := by
        rw [hr]; exact List.drop_left sep r
      subst hq
      rw [hdrop]
      exact ⟨by simpa using hr, fun p' q' _ => Nat.zero_le _⟩
    · rw [if_neg hl] at h
      cases hrec : splitOnFirst sep rest with
      | none => rw [hrec] at h; exact absurd h (by simp)
      | some pq =>
        obtain ⟨p₀, q₀⟩ := pq
        rw [hrec] at h
        simp only [Option.some.injEq, Prod.mk.injEq] at h
        obtain ⟨hp, hq⟩ := h
        obtain ⟨hdec, hmin⟩ := ih p₀ q₀ hrec
        subst hp
        subst hq
        refine ⟨by simp [hdec], ?_⟩
        intro p' q' heq
        cases p' with
        | nil =>
          exact absurd ((leadsWith_iff sep (c :: rest)).mpr ⟨q', by simpa using heq⟩) hl
        | cons d ds =>
          simp only [List.cons_append, List.cons.injEq] at heq
          obtain ⟨hcd, hrest⟩ := heq
          simpa using Nat.succ_le_succ (hmin ds q' hrest)

/-- C6: `parse_filename` strips the extension and splits on the *first*
occurrence of the literal separator, returning the trimmed (artist, title)
pair and `None` when the separator does not occur: the three reference
examples hold, and in general a `some` result decomposes the extension-stripped
base name at the leftmost separator occurrence while a `none` result means no
occurrence exists. -/
theorem parse_filename_first_separator_split :
    parse_filename "Avicii - Levels.m4a" = some ("Avicii", "Levels") ∧
    parse_filename "NoSeparator.mp3" = none ∧
    parse_filename "A - B - C.mp3" = some ("A", "B - C") ∧
    (∀ l : List Char,
      (parse_filename_core l = none ↔ ∀ p q, splitextBase l ≠ p ++ sepDashL ++ q) ∧
      (∀ a t, parse_filename_core l = some (a, t) →
        ∃ p q, splitextBase l = p ++ sepDashL ++ q ∧ a = pyStripL p ∧ t = pyStripL q ∧
          ∀ p' q', splitextBase l = p' ++ sepDashL ++ q' → p.length ≤ p'.length)) := by
  refine ⟨by decide, by decide, by decide, ?_⟩
  intro l
  constructor
  · constructor
    · intro h
      rw [parse_filename_core] at h
      cases hs : splitOnFirst sepDashL (splitextBase l) with
      | none => exact splitOnFirst_none sepDashL (by decide) _ hs
      | some pq => obtain ⟨p, q⟩ := pq; rw [hs] at h; simp at h
    · intro h
      rw [parse_filename_core]
      cases hs : splitOnFirst sepDashL (splitextBase l) with
      | none => simp
      | some pq =>
        obtain ⟨p, q⟩ := pq
        have := (splitOnFirst_some sepDashL _ p q hs).1
        exact absurd this (h p q)
  · intro a t h
    rw [parse_filename_core] at h
    cases hs : splitOnFirst sepDashL (splitextBase l) with
    | none => rw [hs] at h; simp at h
    | some pq =>
      obtain ⟨p, q⟩ := pq
      rw [hs] at h
      simp only [Option.some.injEq, Prod.mk.injEq] at h
      obtain ⟨ha, ht⟩ := h
      obtain ⟨hdec, hmin⟩ := splitOnFirst_some sepDashL _ p q hs
      exact ⟨p, q, hdec, ha.symm, ht.symm, hmin⟩

/-- C6 witness: the general characterization applied to the third example
produces the leftmost decomposition of its base name. -/
theorem parse_filename_first_separator_split_witness :
    ∃ p q, splitextBase ("A - B - C.mp3").data = p ++ sepDashL ++ q ∧
      ("A").data = pyStripL p ∧ ("B - C").data = pyStripL q ∧
      ∀ p' q', splitextBase ("A - B - C.mp3").data = p' ++ sepDashL ++ q' →
        p.length ≤ p'.length :=
  (parse_filename_first_separator_split.2.2.2 ("A - B - C.mp3").data).2
    ("A").data ("B - C").data (by decide)

/-! ### Properties of the prompt state machine -/

/-- A stopped run is frozen by the album step. -/
lemma stepAlbum_of_stopped (ev : Nat → InEvent) (mf : Nat) (d : String)
    (s : PromptState) (h : s.stopped = true) : stepAlbum ev mf d s = s := by
  simp [stepAlbum, h]

/-- A stopped run is frozen by the album-artist/track step. -/
lemma stepAAT_of_stopped (ev : Nat → InEvent) (mf : Nat) (d a : String)
    (f : AudioFile) (s : PromptState) (h : s.stopped = true) :
    stepAlbumArtistTrack ev mf d a f s = .ok s := by
  simp [stepAlbumArtistTrack, h]

/-- A stopped run is frozen by the genre step. -/
lemma stepGenre_of_stopped (ev : Nat → InEvent) (mf : Nat)
    (s : PromptState) (h : s.stopped = true) : stepGenre ev mf s = s := by
  simp [stepGenre, h]

/-- A stopped run is frozen by the year step. -/
lemma stepYear_of_stopped (ev : Nat → InEvent) (mf : Nat)
    (s : PromptState) (h : s.stopped = true) : stepYear ev mf s = s := by
  simp [stepYear, h]

/-- An unstopped state after the genre step was unstopped before it. -/
lemma stepGenre_stopped_rev (ev : Nat → InEvent) (mf : Nat) (s : PromptState)
    (h : (stepGenre ev mf s).stopped = false) : s.stopped = false := by
  by_cases hs : s.stopped = true
  · rw [stepGenre_of_stopped ev mf s hs] at h; exact h
  · simpa using hs

/-- An unstopped state after the year step was unstopped before it. -/
lemma stepYear_stopped_rev (ev : Nat → InEvent) (mf : Nat) (s : PromptState)
    (h : (stepYear ev mf s).stopped = false) : s.stopped = false := by
  by_cases hs : s.stopped = true
  · rw [stepYear_of_stopped ev mf s hs] at h; exact h
  · simpa using hs

/-- An unstopped state after the album-artist/track step was unstopped before. -/
lemma stepAAT_stopped_rev (ev : Nat → InEvent) (mf : Nat) (d a : String)
    (f : AudioFile) (s s2 : PromptState)
    (hok : stepAlbumArtistTrack ev mf d a f s = .ok s2)
    (h : s2.stopped = false) : s.stopped = false := by
  by_cases hs : s.stopped = true
  · rw [stepAAT_of_stopped ev mf d a f s hs] at hok
    rw [Except.ok.injEq] at hok
    subst hok
    rw [h] at hs
    exact absurd hs (by simp)
  · simpa using hs

/-- The album step touches only the index, stop flag, album slot and its own
asked flag. -/
lemma stepAlbum_preserves (ev : Nat → InEvent) (mf : Nat) (d : String)
    (s : PromptState) :
    (stepAlbum ev mf d s).askedAlbumArtist = s.askedAlbumArtist ∧
    (stepAlbum ev mf d s).askedTrack = s.askedTrack ∧
    (stepAlbum ev mf d s).askedGenre = s.askedGenre ∧
    (stepAlbum ev mf d s).askedYear = s.askedYear ∧
    (stepAlbum ev mf d s).albumArtist = s.albumArtist ∧
    (stepAlbum ev mf d s).track = s.track ∧
    (stepAlbum ev mf d s).genre = s.genre ∧
    (stepAlbum ev mf d s).year = s.year := by
  refine ⟨?_, ?_, ?_, ?_, ?_, ?_, ?_, ?_⟩ <;>
    (simp only [stepAlbum]; split_ifs <;> rfl)

/-- The album-artist/track step never touches the album slot, the album asked
flag, nor the genre/year slots and their asked flags. -/
lemma stepAAT_preserves (ev : Nat → InEvent) (mf : Nat) (d a : String)
    (f : AudioFile) (s s2 : PromptState)
    (hok : stepAlbumArtistTrack ev mf d a f s = .ok s2) :
    s2.album = s.album ∧ s2.askedAlbum = s.askedAlbum ∧
    s2.genre = s.genre ∧ s2.year = s.year ∧
    s2.askedGenre = s.askedGenre ∧ s2.askedYear = s.askedYear := by
  simp only [stepAlbumArtistTrack] at hok
  repeat' split at hok
  all_goals
    first
    | (rw [Except.ok.injEq] at hok; subst hok; exact ⟨rfl, rfl, rfl, rfl, rfl, rfl⟩)
    | simp at hok

/-- The genre step touches only the index, stop flag, genre slot and its own
asked flag. -/
lemma stepGenre_preserves (ev : Nat → InEvent) (mf : Nat) (s : PromptState) :
    (stepGenre ev mf s).askedAlbum = s.askedAlbum ∧
    (stepGenre ev mf s).askedAlbumArtist = s.askedAlbumArtist ∧
    (stepGenre ev mf s).askedTrack = s.askedTrack ∧
    (stepGenre ev mf s).askedYear = s.askedYear ∧
    (stepGenre ev mf s).album = s.album ∧
    (stepGenre ev mf s).albumArtist = s.albumArtist ∧
    (stepGenre ev mf s).track = s.track ∧
    (stepGenre ev mf s).year = s.year := by
  refine ⟨?_, ?_, ?_, ?_, ?_, ?_, ?_, ?_⟩ <;>
    (simp only [stepGenre]; split_ifs <;> rfl)

/-- The year step touches only the index, stop flag, year slot and its own
asked flag. -/
lemma stepYear_preserves (ev : Nat → InEvent) (mf : Nat) (s : PromptState) :
    (stepYear ev mf s).askedAlbum = s.askedAlbum ∧
    (stepYear ev mf s).askedAlbumArtist = s.askedAlbumArtist ∧
    (stepYear ev mf s).askedTrack = s.askedTrack ∧
    (stepYear ev mf s).askedGenre = s.askedGenre ∧
    (stepYear ev mf s).album = s.album ∧
    (stepYear ev mf s).albumArtist = s.albumArtist ∧
    (stepYear ev mf s).track = s.track ∧
    (stepYear ev mf s).genre = s.genre := by
  refine ⟨?_, ?_, ?_, ?_, ?_, ?_, ?_, ?_⟩ <;>
    (simp only [stepYear]; split_ifs <;> rfl)

/-- When the album bit is set, the album step is the identity. -/
lemma stepAlbum_not_missing (ev : Nat → InEvent) (mf : Nat) (d : String)
    (s : PromptState) (h : is_missing mf MetadataFlags.HAS_ALBUM = false) :
    stepAlbum ev mf d s = s := by
  simp only [stepAlbum, h]
  split_ifs <;> simp_all

/-- When the genre bit is set, the genre step is the identity. -/
lemma stepGenre_not_missing (ev : Nat → InEvent) (mf : Nat)
    (s : PromptState) (h : is_missing mf MetadataFlags.HAS_GENRE = false) :
    stepGenre ev mf s = s := by
  simp only [stepGenre, h]
  split_ifs <;> simp_all

/-- When the year bit is set, the year step is the identity. -/
lemma stepYear_not_missing (ev : Nat → InEvent) (mf : Nat)
    (s : PromptState) (h : is_missing mf MetadataFlags.HAS_YEAR = false) :
    stepYear ev mf s = s := by
  simp only [stepYear, h]
  split_ifs <;> simp_all

/-- On an unstopped state whose album-artist flag is clear, the
album-artist/track step records whether the album-artist prompt ran: exactly
when the bit is unset or the resolved album differs from the default. -/
lemma stepAAT_askedAlbumArtist (ev : Nat → InEvent) (mf : Nat) (d a : String)
    (f : AudioFile) (s s2 : PromptState)
    (hstop : s.stopped = false) (haa : s.askedAlbumArtist = false)
    (hok : stepAlbumArtistTrack ev mf d a f s = .ok s2) :
    s2.askedAlbumArtist =
      (is_missing mf MetadataFlags.HAS_ALBUM_ARTIST || !(s.album == some d)) := by
  simp only [stepAlbumArtistTrack, hstop] at hok
  rw [if_neg (by simp)] at hok
  split at hok
  · rename_i hcond
    repeat' split at hok
    all_goals
      first
      | (rw [Except.ok.injEq] at hok; subst hok; simp [hcond])
      | simp at hok
  · rename_i hcond
    rw [Except.ok.injEq] at hok
    subst hok
    rw [haa]
    simp only [Bool.or_eq_true, not_or] at hcond
    push_neg at hcond
    simp [hcond.1, hcond.2]

/-- `set_basic_metadata` leaves every field whose argument is `None` unchanged
(shown for the five fields the orchestrator never overwrites when present). -/
lemma set_basic_metadata_preserves (f : AudioFile)
    (title artist album album_artist : Option String)
    (track_nr disc_nr : Option Int) (genre : Option String) (year : Option Int) :
    (title = none →
      titleOf (set_basic_metadata f title artist album album_artist track_nr disc_nr genre year)
        = titleOf f) ∧
    (artist = none →
      artistOf (set_basic_metadata f title artist album album_artist track_nr disc_nr genre year)
        = artistOf f) ∧
    (album = none →
      albumOf (set_basic_metadata f title artist album album_artist track_nr disc_nr genre year)
        = albumOf f) ∧
    (genre = none →
      genreOf (set_basic_metadata f title artist album album_artist track_nr disc_nr genre year)
        = genreOf f) ∧
    (year = none →
      yearOf (set_basic_metadata f title artist album album_artist track_nr disc_nr genre year)
        = yearOf f) := by
  refine ⟨?_, ?_, ?_, ?_, ?_⟩ <;>
    (intro hn
     subst hn
     cases f with
     | unsupported => rfl
     | mp3 t0 =>
       cases t0 <;>
         simp [set_basic_metadata, titleOf, artistOf, albumOf, genreOf, yearOf,
           pyTruthyStr, pyTruthyInt, MP3Tags.empty]
     | m4a t0 =>
       cases t0 <;>
         simp [set_basic_metadata, titleOf, artistOf, albumOf, genreOf, yearOf,
           pyTruthyStr, pyTruthyInt, M4ATags.empty])

/-- The single save of the orchestrator always writes disc number 1 into a
supported file. -/
lemma set_basic_metadata_disc_one (f : AudioFile)
    (title artist album album_artist : Option String)
    (track_nr : Option Int) (genre : Option String) (year : Option Int) :
    discIsOne (set_basic_metadata f title artist album album_artist track_nr (some 1) genre year) := by
  cases f with
  | unsupported => trivial
  | mp3 t0 => cases t0 <;> simp [set_basic_metadata, discIsOne, pyTruthyInt]
  | m4a t0 => cases t0 <;> simp [set_basic_metadata, discIsOne, pyTruthyInt]

/-- Projection of the title through a defaulted MP3 container. -/
lemma titleOf_mp3 (a : Option MP3Tags) :
    titleOf (.mp3 a) = (a.getD MP3Tags.empty).tit2 := by cases a <;> rfl

/-- Projection of the artist through a defaulted MP3 container. -/
lemma artistOf_mp3 (a : Option MP3Tags) :
    artistOf (.mp3 a) = (a.getD MP3Tags.empty).tpe1 := by cases a <;> rfl

/-- Projection of the album through a defaulted MP3 container. -/
lemma albumOf_mp3 (a : Option MP3Tags) :
    albumOf (.mp3 a) = (a.getD MP3Tags.empty).talb := by cases a <;> rfl

/-- Projection of the genre through a defaulted MP3 container. -/
lemma genreOf_mp3 (a : Option MP3Tags) :
    genreOf (.mp3 a) = (a.getD MP3Tags.empty).tcon := by cases a <;> rfl

/-- Projection of the year through a defaulted MP3 container. -/
lemma yearOf_mp3 (a : Option MP3Tags) :
    yearOf (.mp3 a) = (a.getD MP3Tags.empty).tyer := by cases a <;> rfl

/-- Projection of the title through a defaulted M4A container. -/
lemma titleOf_m4a (a : Option M4ATags) :
    titleOf (.m4a a) = (a.getD M4ATags.empty).nam := by cases a <;> rfl

/-- Projection of the artist through a defaulted M4A container. -/
lemma artistOf_m4a (a : Option M4ATags) :
    artistOf (.m4a a) = (a.getD M4ATags.empty).art := by cases a <;> rfl

/-- Projection of the album through a defaulted M4A container. -/
lemma albumOf_m4a (a : Option M4ATags) :
    albumOf (.m4a a) = (a.getD M4ATags.empty).alb := by cases a <;> rfl

/-- Projection of the genre through a defaulted M4A container. -/
lemma genreOf_m4a (a : Option M4ATags) :
    genreOf (.m4a a) = (a.getD M4ATags.empty).gen := by cases a <;> rfl

/-- Projection of the year through a defaulted M4A container. -/
lemma yearOf_m4a (a : Option M4ATags) :
    yearOf (.m4a a) = (a.getD M4ATags.empty).day := by cases a <;> rfl

/-- The disc predicate through a defaulted MP3 container. -/
lemma discIsOne_mp3 (a : Option MP3Tags) :
    discIsOne (.mp3 a) ↔ (a.getD MP3Tags.empty).tpos = some [intToText 1] := by
  cases a <;> simp [discIsOne, MP3Tags.empty]

/-- The disc predicate through a defaulted M4A container. -/
lemma discIsOne_m4a (a : Option M4ATags) :
    discIsOne (.m4a a) ↔ (a.getD M4ATags.empty).disk = some [(1, 0)] := by
  cases a <;> simp [discIsOne, M4ATags.empty]

/-- A successful `add_cover` changes at most the embedded picture: the five
text fields and the disc entry survive. -/
lemma add_cover_preserves (env : CoverEnv) (f f' : AudioFile) (m : Bool)
    (h : add_cover env f = .ok (f', m)) :
    titleOf f' = titleOf f ∧ artistOf f' = artistOf f ∧ albumOf f' = albumOf f ∧
    genreOf f' = genreOf f ∧ yearOf f' = yearOf f ∧ (discIsOne f → discIsOne f') := by
  simp only [add_cover] at h
  repeat' split at h
  all_goals
    first
    | exact Except.noConfusion h
    | (rw [Except.ok.injEq, Prod.mk.injEq] at h
       obtain ⟨hf, hm⟩ := h
       subst hf
       exact ⟨rfl, rfl, rfl, rfl, rfl, fun hd => hd⟩)
    | (rw [Except.ok.injEq, Prod.mk.injEq] at h
       obtain ⟨hf, hm⟩ := h
       subst hf
       simp [titleOf_mp3, artistOf_mp3, albumOf_mp3, genreOf_mp3, yearOf_mp3,
         titleOf_m4a, artistOf_m4a, albumOf_m4a, genreOf_m4a, yearOf_m4a,
         discIsOne_mp3, discIsOne_m4a])

/-- A successful `add_bpm` changes at most the tempo entry: the five text
fields and the disc entry survive. -/
lemma add_bpm_preserves (est : Option ℚ) (f f' : AudioFile) (b : Bool)
    (h : add_bpm est f = .ok (f', b)) :
    titleOf f' = titleOf f ∧ artistOf f' = artistOf f ∧ albumOf f' = albumOf f ∧
    genreOf f' = genreOf f ∧ yearOf f' = yearOf f ∧ (discIsOne f → discIsOne f') := by
  simp only [add_bpm] at h
  repeat' split at h
  all_goals
    first
    | exact Except.noConfusion h
    | (rw [Except.ok.injEq, Prod.mk.injEq] at h
       obtain ⟨hf, hm⟩ := h
       subst hf
       exact ⟨rfl, rfl, rfl, rfl, rfl, fun hd => hd⟩)
    | (rw [Except.ok.injEq, Prod.mk.injEq] at h
       obtain ⟨hf, hm⟩ := h
       subst hf
       simp [titleOf_mp3, artistOf_mp3, albumOf_mp3, genreOf_mp3, yearOf_mp3,
         titleOf_m4a, artistOf_m4a, albumOf_m4a, genreOf_m4a, yearOf_m4a,
         discIsOne_mp3, discIsOne_m4a])

/-- A successful cover phase preserves the five text fields and the disc entry. -/
lemma coverStep_preserves (mflags : Nat) (sel : Option CoverEnv)
    (f f' : AudioFile) (m : Bool) (h : coverStep mflags sel f = .ok (f', m)) :
    titleOf f' = titleOf f ∧ artistOf f' = artistOf f ∧ albumOf f' = albumOf f ∧
    genreOf f' = genreOf f ∧ yearOf f' = yearOf f ∧ (discIsOne f → discIsOne f') := by
  simp only [coverStep] at h
  repeat' split at h
  all_goals
    first
    | (exact add_cover_preserves _ _ _ _ h)
    | (rw [Except.ok.injEq, Prod.mk.injEq] at h
       obtain ⟨hf, hm⟩ := h
       subst hf
       exact ⟨rfl, rfl, rfl, rfl, rfl, fun hd => hd⟩)

/-- A successful BPM phase preserves the five text fields and the disc entry. -/
lemma bpmStep_preserves (mflags : Nat) (est : Option ℚ)
    (f f' : AudioFile) (b : Bool) (h : bpmStep mflags est f = .ok (f', b)) :
    titleOf f' = titleOf f ∧ artistOf f' = artistOf f ∧ albumOf f' = albumOf f ∧
    genreOf f' = genreOf f ∧ yearOf f' = yearOf f ∧ (discIsOne f → discIsOne f') := by
  simp only [bpmStep] at h
  split at h
  · exact add_bpm_preserves _ _ _ _ h
  · rw [Except.ok.injEq, Prod.mk.injEq] at h
    obtain ⟨hf, hm⟩ := h
    subst hf
    exact ⟨rfl, rfl, rfl, rfl, rfl, fun hd => hd⟩

/-! ### Cancellation behavior (C7) -/

/-- Whenever `add_metadata` reports Stop, the file's tag state is untouched. -/
lemma add_metadata_stop_unchanged (inp : MetaIn) (out : MetaOut)
    (h : add_metadata inp = .ok out) (hc : out.cont = false) :
    out.file = inp.file := by
  simp only [add_metadata] at h
  repeat' split at h
  all_goals
    first
    | exact Except.noConfusion h
    | (rw [Except.ok.injEq] at h
       subst h
       first
       | rfl
       | simp [skipOut, stopOut] at hc)

/-- An interrupt at the album prompt stops the run with the file untouched. -/
lemma add_metadata_interrupt_album (inp : MetaIn) (a t : String)
    (hflags : 0 ≤ check_metadata inp.file)
    (hused : (inp.usedDirSupplied && !inp.usedDirValid) = false)
    (hmove : (inp.moveToSupplied && !inp.moveToValid) = false)
    (hparse : parse_filename inp.filename = some (a, t))
    (hmiss : is_missing (check_metadata inp.file).toNat MetadataFlags.HAS_ALBUM = true)
    (hev : inp.events 0 = .interrupt) :
    ∃ out, add_metadata inp = .ok out ∧ out.cont = false ∧ out.file = inp.file := by
  rw [add_metadata, if_neg (not_lt.mpr hflags)]
  simp only [hused, hmove, hparse, Bool.false_eq_true, if_false]
  have h1 : (stepAlbum inp.events (check_metadata inp.file).toNat
      (t ++ " - Single") initPS).stopped = true := by
    simp [stepAlbum, initPS, hmiss, hev, ask_input_str]
  simp only [stepAAT_of_stopped _ _ _ _ _ _ h1, stepGenre_of_stopped _ _ _ h1,
    stepYear_of_stopped _ _ _ h1, h1, if_true]
  exact ⟨_, rfl, rfl, rfl⟩

/-- The batch loop processes the prefix, keeps the cancelled file and every
later file untouched, and halts. -/
lemma batchGo_halts (x : MetaIn) (out : MetaOut) (post : List MetaIn)
    (hx : add_metadata x = .ok out) (hstop : out.cont = false) :
    ∀ pre : List MetaIn, (∀ y ∈ pre, ∃ o, add_metadata y = .ok o ∧ o.cont = true) →
      batchGo (pre ++ x :: post) =
        .ok (pre.map processedFile ++ x.file :: post.map (fun y => y.file)) := by
  intro pre
  induction pre with
  | nil =>
    intro _
    simp only [List.nil_append, List.map_nil, batchGo]
    rw [hx]
    simp only [hstop, Bool.false_eq_true, if_false]
    rw [add_metadata_stop_unchanged x out hx hstop]
  | cons y pre ih =>
    intro hpre
    obtain ⟨o, hoy, hoc⟩ := hpre y (by simp)
    simp only [List.cons_append, List.map_cons, batchGo, List.append_eq]
    rw [hoy]
    simp only [hoc, if_true]
    rw [ih (fun z hz => hpre z (by simp [hz]))]
    have hpf : processedFile y = o.file := by
      rw [processedFile, hoy]
    rw [hpf]

/-- C7: a cancellation signal during the album prompt (or any later prompt)
leaves that file's tag store unchanged and makes `add_metadata` report Stop,
and `add_metadata_all` then halts immediately: the cancelled file and all
remaining files keep their tag state, while files already processed keep their
results. -/
theorem cancellation_aborts_batch_without_writes :
    (∀ (inp : MetaIn) (out : MetaOut), add_metadata inp = .ok out →
      out.cont = false → out.file = inp.file) ∧
    (∀ (inp : MetaIn) (a t : String), 0 ≤ check_metadata inp.file →
      (inp.usedDirSupplied && !inp.usedDirValid) = false →
      (inp.moveToSupplied && !inp.moveToValid) = false →
      parse_filename inp.filename = some (a, t) →
      is_missing (check_metadata inp.file).toNat MetadataFlags.HAS_ALBUM = true →
      inp.events 0 = .interrupt →
      ∃ out, add_metadata inp = .ok out ∧ out.cont = false ∧ out.file = inp.file) ∧
    (∀ (b : BatchIn) (pre : List MetaIn) (x : MetaIn) (post : List MetaIn)
        (out : MetaOut),
      b.audioDirValid = true → b.coverDirValid = true →
      (b.usedDirSupplied && !b.usedDirValid) = false →
      (b.moveToSupplied && !b.moveToValid) = false →
      (∀ y ∈ pre, ∃ o, add_metadata y = .ok o ∧ o.cont = true) →
      add_metadata x = .ok out → out.cont = false →
      add_metadata_all b (pre ++ x :: post) =
        .ok (pre.map processedFile ++ x.file :: post.map (fun y => y.file))) := by
  refine ⟨add_metadata_stop_unchanged, add_metadata_interrupt_album, ?_⟩
  intro b pre x post out hA hC hU hM hpre hx hstop
  rw [add_metadata_all]
  simp only [hA, hC, hU, hM, Bool.not_true, Bool.false_eq_true, if_false]
  exact batchGo_halts x out post hx hstop pre hpre

/-- C7 witness: an interrupt at the album prompt of a fresh M4A file reports
Stop and leaves the tag store untouched. -/
theorem cancellation_aborts_batch_without_writes_witness :
    MetaOut.file
        { cont := false, file := .m4a (some M4ATags.empty), askedAlbum := true,
          askedAlbumArtist := false, askedTrack := false, askedGenre := false,
          askedYear := false, albumVal := none, moved := false } =
      AudioFile.m4a (some M4ATags.empty) :=
  cancellation_aborts_batch_without_writes.1
    ⟨.m4a (some M4ATags.empty), "A - T.m4a", false, false, false, false,
      fun _ => .interrupt, none, none⟩
    { cont := false, file := .m4a (some M4ATags.empty), askedAlbum := true,
      askedAlbumArtist := false, askedTrack := false, askedGenre := false,
      askedYear := false, albumVal := none, moved := false }
    (by decide) rfl

/-! ### Album-artist prompt coupling (C5) -/

/-- C5: in a completed `add_metadata` run (guards passed, filename parsed,
no cancellation), the album-artist prompt was shown if and only if the
album-artist presence bit is unset or the resolved album value differs from
the derived single-default string. -/
theorem album_artist_prompt_iff (inp : MetaIn) (out : MetaOut) (a t : String)
    (h : add_metadata inp = .ok out) (hcont : out.cont = true)
    (hflags : 0 ≤ check_metadata inp.file)
    (hused : (inp.usedDirSupplied && !inp.usedDirValid) = false)
    (hmove : (inp.moveToSupplied && !inp.moveToValid) = false)
    (hparse : parse_filename inp.filename = some (a, t)) :
    out.askedAlbumArtist =
      (is_missing (check_metadata inp.file).toNat MetadataFlags.HAS_ALBUM_ARTIST
        || !(out.albumVal == some (t ++ " - Single"))) := by
  rw [add_metadata, if_neg (not_lt.mpr hflags)] at h
  simp only [hused, hmove, hparse, Bool.false_eq_true, if_false] at h
  set mf := (check_metadata inp.file).toNat with hmf
  set d := t ++ " - Single" with hd
  set s1 := stepAlbum inp.events mf d initPS with hs1
  cases hAAT : stepAlbumArtistTrack inp.events mf d a inp.file s1 with
  | error e =>
    rw [hAAT] at h
    exact Except.noConfusion h
  | ok s2 =>
    simp only [hAAT] at h
    set s4 := stepYear inp.events mf (stepGenre inp.events mf s2) with hs4
    by_cases hstop : s4.stopped = true
    · rw [if_pos hstop, Except.ok.injEq] at h
      subst h
      simp [stopOut] at hcont
    · have hstopf : s4.stopped = false := by simpa using hstop
      rw [if_neg hstop] at h
      split at h
      · exact Except.noConfusion h
      · split at h
        · exact Except.noConfusion h
        · rw [Except.ok.injEq] at h
          subst h
          show s4.askedAlbumArtist =
            (is_missing mf MetadataFlags.HAS_ALBUM_ARTIST || !(s4.album == some d))
          have h2stop : s2.stopped = false :=
            stepGenre_stopped_rev _ _ _ (stepYear_stopped_rev _ _ _ hstopf)
          have h1stop : s1.stopped = false :=
            stepAAT_stopped_rev _ _ _ _ _ _ _ hAAT h2stop
          have haa1 : s1.askedAlbumArtist = false := by
            rw [hs1, (stepAlbum_preserves _ _ _ _).1]; rfl
          have hAA2 := stepAAT_askedAlbumArtist _ _ _ _ _ _ _ h1stop haa1 hAAT
          have halb2 := (stepAAT_preserves _ _ _ _ _ _ _ hAAT).1
          have hAA4 : s4.askedAlbumArtist = s2.askedAlbumArtist := by
            rw [hs4, (stepYear_preserves _ _ _).2.1, (stepGenre_preserves _ _ _).2.1]
          have halb4 : s4.album = s2.album := by
            rw [hs4, (stepYear_preserves _ _ _).2.2.2.2.1,
              (stepGenre_preserves _ _ _).2.2.2.2.1]
          rw [hAA4, hAA2, halb4, halb2]

/-- C5 witness: on a fresh M4A file with every prompt answered "2", the album
resolves to "2", which differs from the derived default, so the album-artist
prompt is shown. -/
theorem album_artist_prompt_iff_witness :
    probeOutC5.askedAlbumArtist =
      (is_missing (check_metadata probeInC5.file).toNat
          MetadataFlags.HAS_ALBUM_ARTIST
        || !(probeOutC5.albumVal == some ("T" ++ " - Single"))) :=
  album_artist_prompt_iff probeInC5 probeOutC5 "A" "T"
    (by decide) rfl (by decide) rfl rfl (by decide)

/-- C2 counterexample: on an M4A file with *all* fields already present
(disc number 2, track 5, album artist "AA"), `add_metadata` still prompts for
the album artist and track number (the album variable is `None`, which differs
from the default string), and the save overwrites the present disc number with
1, the album artist with the prompt answer, and the track number — the claim
that present fields are never changed is false. -/
theorem add_metadata_overwrites_disc_number :
    add_metadata probeInC2 = .ok probeOutC2 ∧
    probeTagsC2.disk = some [(2, 0)] ∧
    (probeOutTagsC2.disk ≠ probeTagsC2.disk ∧
      probeOutTagsC2.aart ≠ probeTagsC2.aart ∧
      probeOutTagsC2.trkn ≠ probeTagsC2.trkn) := by
  refine ⟨by decide, by decide, by decide, by decide, by decide⟩

/-- C2 amended: the single save writes only truthy resolved values, so the
present title, artist, album, genre and year are never changed; but whenever
the save happens the disc number is unconditionally (re)written as 1, and the
album-artist and track-number prompts can overwrite present values. -/
theorem add_metadata_save_frame (inp : MetaIn) (out : MetaOut)
    (h : add_metadata inp = .ok out) :
    (is_missing (check_metadata inp.file).toNat MetadataFlags.HAS_TITLE = false →
      titleOf out.file = titleOf inp.file) ∧
    (is_missing (check_metadata inp.file).toNat MetadataFlags.HAS_ARTIST = false →
      artistOf out.file = artistOf inp.file) ∧
    (is_missing (check_metadata inp.file).toNat MetadataFlags.HAS_ALBUM = false →
      albumOf out.file = albumOf inp.file) ∧
    (is_missing (check_metadata inp.file).toNat MetadataFlags.HAS_GENRE = false →
      genreOf out.file = genreOf inp.file) ∧
    (is_missing (check_metadata inp.file).toNat MetadataFlags.HAS_YEAR = false →
      yearOf out.file = yearOf inp.file) ∧
    (out.file = inp.file ∨ discIsOne out.file) := by
  simp only [add_metadata] at h
  split at h
  · rw [Except.ok.injEq] at h; subst h
    exact ⟨fun _ => rfl, fun _ => rfl, fun _ => rfl, fun _ => rfl, fun _ => rfl, Or.inl rfl⟩
  · split at h
    · rw [Except.ok.injEq] at h; subst h
      exact ⟨fun _ => rfl, fun _ => rfl, fun _ => rfl, fun _ => rfl, fun _ => rfl, Or.inl rfl⟩
    · split at h
      · rw [Except.ok.injEq] at h; subst h
        exact ⟨fun _ => rfl, fun _ => rfl, fun _ => rfl, fun _ => rfl, fun _ => rfl, Or.inl rfl⟩
      · cases hp : parse_filename inp.filename with
        | none =>
          rw [hp] at h
          rw [Except.ok.injEq] at h; subst h
          exact ⟨fun _ => rfl, fun _ => rfl, fun _ => rfl, fun _ => rfl, fun _ => rfl, Or.inl rfl⟩
        | some pr =>
          obtain ⟨aP, tP⟩ := pr
          simp only [hp] at h
          set mf := (check_metadata inp.file).toNat with hmf
          set d := tP ++ " - Single" with hd
          set s1 := stepAlbum inp.events mf d initPS with hs1
          cases hAAT : stepAlbumArtistTrack inp.events mf d aP inp.file s1 with
          | error e =>
            rw [hAAT] at h
            exact Except.noConfusion h
          | ok s2 =>
            simp only [hAAT] at h
            set s4 := stepYear inp.events mf (stepGenre inp.events mf s2) with hs4
            by_cases hstop : s4.stopped = true
            · rw [if_pos hstop, Except.ok.injEq] at h
              subst h
              exact ⟨fun _ => rfl, fun _ => rfl, fun _ => rfl, fun _ => rfl, fun _ => rfl,
                Or.inl rfl⟩
            · rw [if_neg hstop] at h
              split at h
              · exact Except.noConfusion h
              · rename_i hcovspl f2 m2 hcov
                split at h
                · exact Except.noConfusion h
                · rename_i hbpmspl f3 b3 hbpm
                  rw [Except.ok.injEq] at h
                  subst h
                  obtain ⟨hc1, hc2, hc3, hc4, hc5, hc6⟩ :=
                    coverStep_preserves _ _ _ _ _ hcov
                  obtain ⟨hb1, hb2, hb3, hb4, hb5, hb6⟩ :=
                    bpmStep_preserves _ _ _ _ _ hbpm
                  obtain ⟨hp1, hp2, hp3, hp4, hp5⟩ :=
                    set_basic_metadata_preserves inp.file
                      (if is_missing mf MetadataFlags.HAS_TITLE = true then some tP else none)
                      (if is_missing mf MetadataFlags.HAS_ARTIST = true then some aP else none)
                      s4.album s4.albumArtist s4.track (some 1) s4.genre s4.year
                  refine ⟨?_, ?_, ?_, ?_, ?_, Or.inr ?_⟩
                  · intro hmiss
                    show titleOf f3 = titleOf inp.file
                    rw [hb1, hc1, hp1 (by simp [hmiss])]
                  · intro hmiss
                    show artistOf f3 = artistOf inp.file
                    rw [hb2, hc2, hp2 (by simp [hmiss])]
                  · intro hmiss
                    show albumOf f3 = albumOf inp.file
                    have hsa : s4.album = none := by
                      rw [hs4, (stepYear_preserves _ _ _).2.2.2.2.1,
                        (stepGenre_preserves _ _ _).2.2.2.2.1,
                        (stepAAT_preserves _ _ _ _ _ _ _ hAAT).1, hs1,
                        stepAlbum_not_missing _ _ _ _ hmiss]
                      rfl
                    rw [hb3, hc3, hp3 hsa]
                  · intro hmiss
                    show genreOf f3 = genreOf inp.file
                    have hsg : s4.genre = none := by
                      rw [hs4, (stepYear_preserves _ _ _).2.2.2.2.2.2.2,
                        stepGenre_not_missing _ _ _ hmiss,
                        (stepAAT_preserves _ _ _ _ _ _ _ hAAT).2.2.1, hs1,
                        (stepAlbum_preserves _ _ _ _).2.2.2.2.2.2.1]
                      rfl
                    rw [hb4, hc4, hp4 hsg]
                  · intro hmiss
                    show yearOf f3 = yearOf inp.file
                    have hsy : s4.year = none := by
                      rw [hs4, stepYear_not_missing _ _ _ hmiss,
                        (stepGenre_preserves _ _ _).2.2.2.2.2.2.2,
                        (stepAAT_preserves _ _ _ _ _ _ _ hAAT).2.2.2.1, hs1,
                        (stepAlbum_preserves _ _ _ _).2.2.2.2.2.2.2]
                      rfl
                    rw [hb5, hc5, hp5 hsy]
                  · show discIsOne f3
                    exact hb6 (hc6 (set_basic_metadata_disc_one inp.file _ _ _ _ _ _ _))

/-- C2 witness: on the fully tagged probe file the present title is unchanged
and the saved file's disc number is 1. -/
theorem add_metadata_save_frame_witness :
    titleOf probeOutC2.file = titleOf probeInC2.file ∧
    (probeOutC2.file = probeInC2.file ∨ discIsOne probeOutC2.file) :=
  ⟨(add_metadata_save_frame probeInC2 probeOutC2 (by decide)).1 (by decide),
   (add_metadata_save_frame probeInC2 probeOutC2 (by decide)).2.2.2.2.2⟩
